import Mathlib

/-!
# aliykh/tracer: span lifecycle of the gin middleware, the database span helper
and the Jaeger initialisation

The development embeds the three source files of the package:

* `gin.go`      (`Tracer` and its options),
* `database.go` (`StartDBSpanFromContext`, `WrapWithDBTags`),
* `jeager.go`   (`InitJaeger` and the teardown closure).

The package talks to libraries through interfaces (`opentracing.Tracer`,
`opentracing.Span`, `gin.Context`, a logger, an `io.Closer`).  Every call the
package makes on one of these interfaces is appended to a chronological
`trace`; the theorems are statements about that trace and about the values
the functions return.  What a particular tracer implementation does with a
call is outside the package and is not modelled.
-/

set_option autoImplicit false

/-! ## `context` and `opentracing` values -/

namespace opentracing

/-- A span handle.  `noop` is the span of `opentracing.NoopTracer`
(`defaultNoopSpan`); `started id` is the handle returned by the `id`-th
`StartSpan` call of the process. -/
inductive Span where
  | noop
  | started (id : Nat)
  deriving DecidableEq, Repr

/-- A span context: the one of a span of this process, or one decoded from a
carrier by `Tracer.Extract`. -/
inductive SpanContext where
  | noop
  | ofSpan (id : Nat)
  | extracted (id : Nat)
  deriving DecidableEq, Repr

/-- Method `Span.Context()`. -/
def Span.Context : Span → SpanContext
  | .noop => .noop
  | .started id => .ofSpan id

/-- Tag values (`interface{}` in Go): the strings and `uint16` the package
itself produces, and any other value a caller may hand in. -/
inductive Value where
  | str (s : String)
  | uint16 (n : Nat)
  | other (n : Nat)
  deriving DecidableEq, Repr

/-- Reference kinds of `opentracing.SpanReferenceType`. -/
inductive SpanReferenceType where
  | ChildOfRef
  | FollowsFromRef
  deriving DecidableEq, Repr

/-- Struct `opentracing.SpanReference`. -/
structure SpanReference where
  RefType : SpanReferenceType
  ReferencedContext : SpanContext
  deriving DecidableEq, Repr

/-- Struct `opentracing.StartSpanOptions` (references and initial tags). -/
structure StartSpanOptions where
  References : List SpanReference
  Tags : List (String × Value)
  deriving DecidableEq, Repr

/-- A `StartSpanOption` is applied to the options record. -/
abbrev StartSpanOption := StartSpanOptions → StartSpanOptions

/-- Option `opentracing.ChildOf(sc)`; a nil context adds nothing. -/
def ChildOf (sc : Option SpanContext) : StartSpanOption := fun o =>
  match sc with
  | none => o
  | some sc => { o with References := o.References ++ [⟨.ChildOfRef, sc⟩] }

/-- The options record a `StartSpan` call builds from its option list. -/
def applyOptions (opts : List StartSpanOption) : StartSpanOptions :=
  opts.foldl (fun o opt => opt o) ⟨[], []⟩

end opentracing

namespace context

/-- A `context.Context`: an immutable chain of bindings.  `withSpan` is a
binding under the `activeSpanKey` of opentracing (`none` is a nil span),
`withValue` a binding under any other key. -/
inductive Context where
  | background
  | withSpan (parent : Context) (span : Option opentracing.Span)
  | withValue (parent : Context) (key : Nat) (val : Nat)
  deriving DecidableEq, Repr

/-- Method `ctx.Value(key)` for a key other than the active-span key. -/
def Context.Value : Context → Nat → Option Nat
  | .background, _ => none
  | .withSpan parent _, k => parent.Value k
  | .withValue parent key val, k => if k = key then some val else parent.Value k

end context

namespace opentracing

/-- Constructor `opentracing.ContextWithSpan(ctx, span)`. -/
def ContextWithSpan (ctx : context.Context) (span : Span) : context.Context :=
  .withSpan ctx (some span)

/-- Lookup `opentracing.SpanFromContext(ctx)`: the innermost span binding. -/
def SpanFromContext : context.Context → Option Span
  | .background => none
  | .withSpan _ span => span
  | .withValue parent _ _ => SpanFromContext parent

end opentracing

/-! ## `net/http`, `net/url` and `gin` values -/

namespace url

/-- A `url.URL`.  `rendered` is the value of the method `String()` of
`net/url`, which is outside the package. -/
structure URL where
  Scheme : String
  Host : String
  Path : String
  RawQuery : String
  rendered : String
  deriving DecidableEq, Repr

/-- Method `u.String()`. -/
def URL.String (u : URL) : String := u.rendered

end url

namespace http

/-- The fields of `http.Request` the package reads, and its context. -/
structure Request where
  Method : String
  URL : url.URL
  Header : List (String × List String)
  ctx : context.Context
  deriving DecidableEq, Repr

/-- Method `r.Context()`. -/
def Request.Context (r : Request) : context.Context := r.ctx

/-- Method `r.WithContext(ctx)`: a copy of the request with the context replaced. -/
def Request.WithContext (r : Request) (ctx : context.Context) : Request :=
  { r with ctx := ctx }

end http

namespace gin

/-- The part of `gin.Context` the middleware touches: the request pointer
and the status held by the response writer. -/
structure Context where
  Request : http.Request
  status : Int
  deriving DecidableEq, Repr

end gin

namespace opentracing

/-- A tracer behind the `opentracing.Tracer` interface: an identity and its
`Extract` for the HTTP headers carrier (`none` is the nil context returned
together with an error). -/
structure Tracer where
  id : Nat
  Extract : List (String × List String) → Option SpanContext

end opentracing

/-! ## Execution model: traces, panics, deferred calls -/

/-- One call made on an interface outside the package. -/
inductive Event where
  | Extract (tr : Nat) (carrier : List (String × List String))
  | StartSpan (tr : Nat) (opName : String) (opts : opentracing.StartSpanOptions)
      (span : opentracing.Span)
  | SetTag (span : opentracing.Span) (key : String) (value : opentracing.Value)
  | Finish (span : opentracing.Span)
  | spanObserver (span : opentracing.Span) (r : http.Request)
  | Next (r : http.Request)
  | Printf (msg : String)
  | NewTracer (serviceName : String)
  | SetGlobalTracer (tr : Nat)
  | Close (closer : Nat)
  | Fatal (logger : Nat) (msg : String) (fields : List (String × String))
  | Error (logger : Nat) (msg : String) (fields : List (String × String))
  | Info (logger : Nat) (msg : String) (fields : List (String × String))
  deriving DecidableEq, Repr

/-- Process-wide state of the opentracing library: the registered global
tracer and the number of spans started so far. -/
structure World where
  globalTracer : opentracing.Tracer
  nextSpan : Nat

/-- A deferred call of the running function (`defer span.Finish()`). -/
inductive Deferred where
  | Finish (span : opentracing.Span)
  deriving DecidableEq, Repr

/-- Machine state: library state, the gin context of the request being
served, the trace so far, and the deferred calls of the running function
(most recent first). -/
structure State where
  world : World
  c : gin.Context
  trace : List Event
  defers : List Deferred

/-- How a Go computation ends: a value, a panic, or `os.Exit`. -/
inductive Res (α : Type) where
  | ok (a : α)
  | panic (v : String)
  | exit (code : Nat)
  deriving DecidableEq, Repr

/-- A Go computation. -/
def Go (α : Type) : Type := State → Res α × State

namespace Go

/-- Sequencing: a panic or an exit skips the rest. -/
def bind {α β : Type} (m : Go α) (f : α → Go β) : Go β := fun s =>
  match m s with
  | (.ok a, s1) => f a s1
  | (.panic v, s1) => (.panic v, s1)
  | (.exit code, s1) => (.exit code, s1)

instance : Monad Go where
  pure a := fun s => (.ok a, s)
  bind := bind

/-- Append a call to the trace. -/
def emit (e : Event) : Go Unit := fun s => (.ok (), { s with trace := s.trace ++ [e] })

/-- Read the trace so far. -/
def getTrace : Go (List Event) := fun s => (.ok s.trace, s)

/-- Statement `defer d`. -/
def defer (d : Deferred) : Go Unit := fun s => (.ok (), { s with defers := d :: s.defers })

/-- Run one deferred call. -/
def runDeferred : Deferred → Go Unit
  | .Finish span => emit (.Finish span)

/-- Run the deferred calls, most recent first, on the way out of a function
that is ending with `r`: a deferred call that panics replaces `r` and the
remaining ones still run; `os.Exit` ends everything. -/
def runDefers {α : Type} : List Deferred → Res α → State → Res α × State
  | [], r, s => (r, s)
  | d :: ds, r, s =>
    match runDeferred d s with
    | (.ok _, s1) => runDefers ds r s1
    | (.panic v, s1) => runDefers ds (.panic v) s1
    | (.exit code, s1) => (.exit code, s1)

/-- A function call: the body runs with its own defer list; on return and on
panic the deferred calls run, on `os.Exit` they do not.  The defer list of
the caller is restored afterwards. -/
def call {α : Type} (body : Go α) : Go α := fun s =>
  match body { s with defers := [] } with
  | (.exit code, s1) => (.exit code, { s1 with defers := s.defers })
  | (r, s1) =>
    match runDefers s1.defers r s1 with
    | (r2, s2) => (r2, { s2 with defers := s.defers })

/-- Function `os.Exit(code)`. -/
def exit {α : Type} (code : Nat) : Go α := fun s => (.exit code, s)

/-- Run a function value supplied by the caller of the package. -/
def callUser (f : World → Option String × World) : Go Unit := fun s =>
  match f s.world with
  | (none, w) => (.ok (), { s with world := w })
  | (some v, w) => (.panic v, { s with world := w })

end Go

/-- Code of the caller reached through a function value: it may change the
library state and it returns (`none`) or panics (`some v`). -/
abbrev UserFunc := World → Option String × World

/-- The handlers after this one in the gin chain, run by `c.Next()`: they
may change the gin context and the library state, and return or panic. -/
abbrev Chain := gin.Context → World → Option String × gin.Context × World

namespace opentracing

/-- Method `span.SetTag(key, value)`. -/
def Span.SetTag (span : Span) (key : String) (value : Value) : Go Unit :=
  Go.emit (.SetTag span key value)

/-- Method `tr.Extract(opentracing.HTTPHeaders, carrier)`; the error is dropped by the caller. -/
def Tracer.ExtractHTTP (tr : Tracer) (carrier : List (String × List String)) :
    Go (Option SpanContext) := do
  Go.emit (.Extract tr.id carrier)
  pure (tr.Extract carrier)

/-- Method `tr.StartSpan(opName, opts...)`: a fresh span handle. -/
def Tracer.StartSpan (tr : Tracer) (opName : String) (opts : List StartSpanOption) :
    Go Span := fun s =>
  let span := Span.started s.world.nextSpan
  (.ok span,
    { s with
      world := { s.world with nextSpan := s.world.nextSpan + 1 }
      trace := s.trace ++ [.StartSpan tr.id opName (applyOptions opts) span] })

/-- Function `opentracing.StartSpan`: `StartSpan` on the global tracer. -/
def StartSpan (opName : String) (opts : List StartSpanOption) : Go Span := fun s =>
  s.world.globalTracer.StartSpan opName opts s

/-- Call `opentracing.NoopTracer{}.StartSpan(_)`: the no-op span, no effect. -/
def NoopTracer.StartSpan (_opName : String) : Go Span := pure Span.noop

end opentracing

namespace ext

/-- Tag name `ext.HTTPMethod`. -/
def HTTPMethod : String := "http.method"
/-- Tag name `ext.HTTPUrl`. -/
def HTTPUrl : String := "http.url"
/-- Tag name `ext.HTTPStatusCode`. -/
def HTTPStatusCode : String := "http.status_code"
/-- Tag name `ext.Component`. -/
def Component : String := "component"
/-- Tag name `ext.SpanKind`. -/
def SpanKind : String := "span.kind"
/-- Tag name `ext.PeerService`. -/
def PeerService : String := "peer.service"

/-- Option `ext.RPCServerOption(client)`: a child-of reference when a client
context was extracted, and the tag `span.kind = server`. -/
def RPCServerOption (client : Option opentracing.SpanContext) : opentracing.StartSpanOption :=
  fun o =>
    let o1 := opentracing.ChildOf client o
    { o1 with Tags := o1.Tags ++ [(SpanKind, .str "server")] }

end ext

namespace gin

/-- Method `c.Next()`: run the rest of the handler chain on the gin context. -/
def Next (rest : Chain) : Go Unit := fun s =>
  let s1 : State := { s with trace := s.trace ++ [Event.Next s.c.Request] }
  match rest s.c s.world with
  | (none, c, w) => (.ok (), { s1 with c := c, world := w })
  | (some v, c, w) => (.panic v, { s1 with c := c, world := w })

/-- Read `c.Request`. -/
def Request : Go http.Request := fun s => (.ok s.c.Request, s)

/-- Assignment `c.Request = r`. -/
def setRequest (r : http.Request) : Go Unit := fun s =>
  (.ok (), { s with c := { s.c with Request := r } })

/-- Method `c.Writer.Status()`. -/
def Status : Go Int := fun s => (.ok s.c.status, s)

/-- A `gin.HandlerFunc`, given the handlers that follow it in the chain. -/
abbrev HandlerFunc := Chain → Go Unit

end gin

/-- Conversion `uint16(x)` of an `int`: the low 16 bits. -/
def uint16 (x : Int) : Nat := (x % 65536).toNat

/-- Formatting `fmt.Sprintf("%d", i)` of a non-negative index. -/
def fmtD (i : Nat) : String := toString i

/-! ## `gin.go` -/

namespace tracer

def defaultComponentName : String := "net/http"

structure mwOptions where
  opNameFunc : http.Request → String
  spanFilter : http.Request → Bool
  spanObserver : opentracing.Span → http.Request → UserFunc
  urlTagFunc : url.URL → String
  componentName : String

/-- MWOption controls the behavior of the Middleware. -/
abbrev MWOption := mwOptions → mwOptions

def OperationNameFunc (f : http.Request → String) : MWOption :=
  fun options => { options with opNameFunc := f }

def MWComponentName (componentName : String) : MWOption :=
  fun options => { options with componentName := componentName }

def MWSpanFilter (f : http.Request → Bool) : MWOption :=
  fun options => { options with spanFilter := f }

def MWSpanObserver (f : opentracing.Span → http.Request → UserFunc) : MWOption :=
  fun options => { options with spanObserver := f }

def MWURLTagFunc (f : url.URL → String) : MWOption :=
  fun options => { options with urlTagFunc := f }

/-- The default options of `Tracer` (gin.go, lines 71-80). -/
def defaultOptions : mwOptions where
  opNameFunc := fun r => "HTTP " ++ r.Method ++ " " ++ r.URL.Path
  spanFilter := fun _ => true
  spanObserver := fun _ _ w => (none, w)
  urlTagFunc := fun u => u.String
  componentName := ""

/-- The options after the loop `for _, opt := range options` (lines 82-84). -/
def applyMWOptions (options : List MWOption) : mwOptions :=
  options.foldl (fun opts opt => opt opts) defaultOptions

/-- The component name in use (lines 87-90). -/
def componentNameOf (opts : mwOptions) : String :=
  if opts.componentName = "" then defaultComponentName else opts.componentName

/-- The closure `handler` of `Tracer` (lines 92-129). -/
def handler (tr : opentracing.Tracer) (opts : mwOptions) (componentName : String) :
    gin.HandlerFunc := fun rest => Go.call do
  if !opts.spanFilter (← gin.Request) then
    gin.Next rest
    return
  let carrier := (← gin.Request).Header
  let ctx ← tr.ExtractHTTP carrier
  let opName := opts.opNameFunc (← gin.Request)
  let span ← tr.StartSpan opName [ext.RPCServerOption ctx]
  Go.defer (.Finish span)
  span.SetTag ext.HTTPMethod (.str (← gin.Request).Method)
  span.SetTag ext.HTTPUrl (.str (opts.urlTagFunc (← gin.Request).URL))
  span.SetTag ext.Component (.str componentName)
  Go.emit (.spanObserver span (← gin.Request))
  Go.callUser (opts.spanObserver span (← gin.Request))
  gin.setRequest ((← gin.Request).WithContext
    (opentracing.ContextWithSpan (← gin.Request).Context span))
  gin.Next rest
  let code := uint16 (← gin.Status)
  span.SetTag ext.HTTPStatusCode (.uint16 code)

/-- Tracer - the gin middleware (lines 68-132). -/
def Tracer (tr : opentracing.Tracer) (options : List MWOption) : gin.HandlerFunc :=
  let opts := applyMWOptions options
  let componentName := componentNameOf opts
  handler tr opts componentName

end tracer

/-! ## `database.go` -/

namespace tracer

/-- The loop `for i, p := range params` of `StartDBSpanFromContext`
(lines 19-22), from index `i` on. -/
def tagParams (span : opentracing.Span) : Nat → List opentracing.Value → Go Unit
  | _, [] => pure ()
  | i, p :: ps => do
    let s := "param.#" ++ fmtD i
    span.SetTag s p
    tagParams span (i + 1) ps

/-- StartDBSpanFromContext - returns new span for the database operations
(lines 12-29). -/
def StartDBSpanFromContext (ctx : context.Context) (opName : String)
    (params : List opentracing.Value) : Go (opentracing.Span × context.Context) := Go.call do
  if let some span := opentracing.SpanFromContext ctx then
    let span ← opentracing.StartSpan opName [opentracing.ChildOf (some span.Context)]
    tagParams span 0 params
    let ctx := opentracing.ContextWithSpan ctx span
    return (span, ctx)
  return (← opentracing.NoopTracer.StartSpan "noop span", ctx)

abbrev DBType := String

def Redis : DBType := "redis"
def PostgreSQL : DBType := "psql"

def WrapWithDBTags (span : opentracing.Span) (dbType : DBType) (query : String) : Go Unit :=
  Go.call do
    span.SetTag ext.SpanKind (.str "client")
    span.SetTag ext.PeerService (.str dbType)
    span.SetTag "query" (.str query)

end tracer

/-! ## `jeager.go` -/

namespace config

/-- Struct `config.SamplerConfig` of jaeger-client-go. -/
structure SamplerConfig where
  SamplerType : String
  Param : Nat
  deriving DecidableEq, Repr

/-- Struct `config.Configuration` of jaeger-client-go. -/
structure Configuration where
  ServiceName : String
  Sampler : SamplerConfig
  deriving DecidableEq, Repr

end config

namespace metrics

/-- A `metrics.Factory` of jaeger-lib, known by its identity. -/
structure Factory where
  id : Nat
  deriving DecidableEq, Repr

end metrics

namespace log

/-- A `log.Logger` of `github.com/aliykh/log`, known by its identity. -/
structure Logger where
  id : Nat
  deriving DecidableEq, Repr

/-- A `*log.Factory` of `github.com/aliykh/log`, known by its identity. -/
structure Factory where
  id : Nat
  deriving DecidableEq, Repr

/-- Method `logger.Default()`: the logger of the factory. -/
def Factory.Default (f : Factory) : Logger := ⟨f.id⟩

/-- Modelled from the spec: method `Fatal` of `log.Logger` (package
`github.com/aliykh/log`, not among the sources).  Tracer construction
failure is fatal: the entry is logged and the process ends, so the call does
not return. -/
def Logger.Fatal {α : Type} (l : Logger) (msg : String) (fields : List (String × String)) :
    Go α := do
  Go.emit (.Fatal l.id msg fields)
  Go.exit 1

/-- Method `Error` of `log.Logger`: one error entry. -/
def Logger.Error (l : Logger) (msg : String) (fields : List (String × String)) : Go Unit :=
  Go.emit (.Error l.id msg fields)

/-- Method `Info` of `log.Logger`: one info entry. -/
def Logger.Info (l : Logger) (msg : String) (fields : List (String × String)) : Go Unit :=
  Go.emit (.Info l.id msg fields)

end log

namespace zap

/-- Field `zap.Error(err)`: the error under the key `error`. -/
def Error (err : String) : String × String := ("error", err)

/-- Field `zap.Any(key, value)` for a string value. -/
def Any (key value : String) : String × String := (key, value)

end zap

namespace fmt

/-- The arguments of a call `fmt.Sprintf(format, args...)` with a format that
is not a constant of the package; `result` is the string package `fmt`
returns for them. -/
structure Formatting where
  format : String
  args : List opentracing.Value
  result : String
  deriving DecidableEq, Repr

/-- Function `fmt.Sprintf(format, args...)`. -/
def Sprintf (f : Formatting) : String := f.result

end fmt

namespace tracer

/-- The adapter handed to jaeger as its logger (lines 62-64). -/
structure jaegerLoggerAdapter where
  logger : log.Logger
  deriving DecidableEq, Repr

/-- Method `Error` of the adapter (lines 66-68). -/
def jaegerLoggerAdapter.Error (l : jaegerLoggerAdapter) (msg : String) : Go Unit :=
  l.logger.Error msg []

/-- Method `Infof` of the adapter (lines 70-72); `f` holds `msg` and `args`. -/
def jaegerLoggerAdapter.Infof (l : jaegerLoggerAdapter) (f : fmt.Formatting) : Go Unit :=
  l.logger.Info (fmt.Sprintf f) []

end tracer

/-- A call jaeger makes on the logger it was configured with. -/
inductive LoggerCall where
  | Error (msg : String)
  | Infof (f : fmt.Formatting)
  deriving DecidableEq, Repr

/-- Jaeger makes a sequence of calls on the adapter. -/
def LoggerCall.run (l : tracer.jaegerLoggerAdapter) : List LoggerCall → Go Unit
  | [] => pure ()
  | .Error msg :: calls => do
    l.Error msg
    LoggerCall.run l calls
  | .Infof f :: calls => do
    l.Infof f
    LoggerCall.run l calls

/-- What a call of `Close` does, given the calls made so far: the calls it
makes on the logger jaeger was configured with, and the error it returns. -/
abbrev CloseFunc := List Event → List LoggerCall × Option String

/-- The `io.Closer` returned by `NewTracer`: its identity, the logger jaeger
was configured with, and what `Close` does. -/
structure Closer where
  id : Nat
  logger : tracer.jaegerLoggerAdapter
  Close : CloseFunc

/-- The jaeger configuration library as `InitJaeger` uses it: `FromEnv`
updates the configuration in place and may report an error; `NewTracer`,
given the logger and the metrics factory as options, makes calls on that
logger and returns a tracer and its closer (identity and `Close`), or an
error. -/
structure JaegerLib where
  FromEnv : config.Configuration → config.Configuration × Option String
  NewTracer : config.Configuration → tracer.jaegerLoggerAdapter → metrics.Factory →
    List LoggerCall × Except String (opentracing.Tracer × Nat × CloseFunc)

/-- Method `cfg.NewTracer(config.Logger(l), config.Metrics(m), ...)`: jaeger
logs through `l` while it constructs the tracer, and the closer keeps `l`. -/
def JaegerLib.NewTracerCall (lib : JaegerLib) (cfg : config.Configuration)
    (l : tracer.jaegerLoggerAdapter) (m : metrics.Factory) :
    Go (Except String (opentracing.Tracer × Closer)) := do
  Go.emit (.NewTracer cfg.ServiceName)
  LoggerCall.run l (lib.NewTracer cfg l m).1
  match (lib.NewTracer cfg l m).2 with
  | .error e => pure (.error e)
  | .ok (t, id, close) => pure (.ok (t, ⟨id, l, close⟩))

/-- Method `closer.Close()`: jaeger logs through its logger while it closes. -/
def Closer.CloseCall (closer : Closer) : Go (Option String) := do
  let before ← Go.getTrace
  Go.emit (.Close closer.id)
  LoggerCall.run closer.logger (closer.Close before).1
  pure (closer.Close before).2

namespace opentracing

/-- Function `opentracing.SetGlobalTracer(tracer)`. -/
def SetGlobalTracer (tracer : Tracer) : Go Unit := fun s =>
  (.ok (), { s with
    world := { s.world with globalTracer := tracer }
    trace := s.trace ++ [.SetGlobalTracer tracer.id] })

end opentracing

namespace tracer

/-- The closure `tr` of `InitJaeger`: teardown for closing the tracer
(lines 51-57). -/
def teardown (closer : Closer) (logger : log.Factory) : Go Unit := Go.call do
  if let some err ← closer.CloseCall then
    logger.Default.Error "tracer close" [zap.Any "err" err]
    return
  logger.Default.Info "tracer closed [teardown]" []

/-- InitJaeger (lines 17-60); `lib` is the jaeger configuration library. -/
def InitJaeger (lib : JaegerLib) (serviceName : String) (metricsFactory : metrics.Factory)
    (logger : log.Factory) : Go (opentracing.Tracer × Go Unit) := Go.call do
  let cfg : config.Configuration :=
    { ServiceName := serviceName, Sampler := { SamplerType := "const", Param := 1 } }
  let (cfg, err) := lib.FromEnv cfg
  if let some e := err then
    Go.emit (.Printf ("jaeger env variables from os env err: " ++ e ++ "\n"))
  let jaegerLogger : jaegerLoggerAdapter := { logger := logger.Default }
  match ← lib.NewTracerCall cfg jaegerLogger metricsFactory with
  | .error e => logger.Default.Fatal "cannot initialize Jaeger Tracer" [zap.Error e]
  | .ok (tracer, closer) =>
    opentracing.SetGlobalTracer tracer
    let tr := teardown closer logger
    return (tracer, tr)

end tracer

/-! ## Observations on traces -/

/-- The calls made during a run that starts in state `s` and ends in `s1`. -/
def callsOf (s s1 : State) : List Event := s1.trace.drop s.trace.length

namespace Event

/-- Is the call a `StartSpan`? -/
def isStartSpan : Event → Bool
  | .StartSpan _ _ _ _ => true
  | _ => false

/-- Is the call an `Extract`? -/
def isExtract : Event → Bool
  | .Extract _ _ => true
  | _ => false

/-- Is the call a `Finish`? -/
def isFinish : Event → Bool
  | .Finish _ => true
  | _ => false

/-- Is the call the dispatch of the next handler? -/
def isNext : Event → Bool
  | .Next _ => true
  | _ => false

/-- Is the call the span observer? -/
def isSpanObserver : Event → Bool
  | .spanObserver _ _ => true
  | _ => false

/-- Is the call a `SetTag` with the given key? -/
def isSetTagOf (key : String) : Event → Bool
  | .SetTag _ k _ => k = key
  | _ => false

/-- Is the call a `SetGlobalTracer`? -/
def isSetGlobalTracer : Event → Bool
  | .SetGlobalTracer _ => true
  | _ => false

/-- Is the call a `Close`? -/
def isClose : Event → Bool
  | .Close _ => true
  | _ => false

/-- Is the call an error log entry? -/
def isError : Event → Bool
  | .Error _ _ _ => true
  | _ => false

/-- Is the call an info log entry? -/
def isInfo : Event → Bool
  | .Info _ _ _ => true
  | _ => false

/-- Is the call a fatal log entry? -/
def isFatal : Event → Bool
  | .Fatal _ _ _ => true
  | _ => false

end Event

/-- The log entry a call of jaeger on the adapter `l` produces. -/
def LoggerCall.entry (l : tracer.jaegerLoggerAdapter) : LoggerCall → Event
  | .Error msg => .Error l.logger.id msg []
  | .Infof f => .Info l.logger.id f.result []

/-- The tags a list of calls gives to `span`, in order: the initial tags of
its `StartSpan` and its `SetTag` calls. -/
def tagsSet (span : opentracing.Span) : List Event → List (String × opentracing.Value)
  | [] => []
  | .StartSpan _ _ o sp :: es => (if sp = span then o.Tags else []) ++ tagsSet span es
  | .SetTag sp k v :: es => (if sp = span then [(k, v)] else []) ++ tagsSet span es
  | _ :: es => tagsSet span es

/-- The value of a tag after a sequence of writes: the last write wins. -/
def tagValue : List (String × opentracing.Value) → String → Option opentracing.Value
  | [], _ => none
  | (k, v) :: kvs, key =>
    match tagValue kvs key with
    | some w => some w
    | none => if k = key then some v else none

/-- The tag key of the parameter with index `i`. -/
def paramKey (i : Nat) : String := "param.#" ++ fmtD i

/-- Value of a decimal digit character. -/
def digitVal (c : Char) : Nat := c.toNat - 48

/-! ### The option constructors as data -/

/-- A call of one of the five option constructors of `gin.go`. -/
inductive OptionCall where
  | OperationNameFunc (f : http.Request → String)
  | MWComponentName (componentName : String)
  | MWSpanFilter (f : http.Request → Bool)
  | MWSpanObserver (f : opentracing.Span → http.Request → UserFunc)
  | MWURLTagFunc (f : url.URL → String)

/-- The `MWOption` an option call returns. -/
def OptionCall.build : OptionCall → tracer.MWOption
  | .OperationNameFunc f => tracer.OperationNameFunc f
  | .MWComponentName n => tracer.MWComponentName n
  | .MWSpanFilter f => tracer.MWSpanFilter f
  | .MWSpanObserver f => tracer.MWSpanObserver f
  | .MWURLTagFunc f => tracer.MWURLTagFunc f

/-- The function an `OperationNameFunc` call supplies. -/
def OptionCall.opNameArg : OptionCall → Option (http.Request → String)
  | .OperationNameFunc f => some f
  | _ => none

/-- The function an `MWURLTagFunc` call supplies. -/
def OptionCall.urlTagArg : OptionCall → Option (url.URL → String)
  | .MWURLTagFunc f => some f
  | _ => none

/-- The name an `MWComponentName` call supplies. -/
def OptionCall.componentArg : OptionCall → Option String
  | .MWComponentName n => some n
  | _ => none

/-- The argument of the last `OperationNameFunc` call in the list, if any. -/
def lastOpNameFunc : List OptionCall → Option (http.Request → String)
  | [] => none
  | c :: cs =>
    match lastOpNameFunc cs with
    | some f => some f
    | none => c.opNameArg

/-- The argument of the last `MWURLTagFunc` call in the list, if any. -/
def lastURLTagFunc : List OptionCall → Option (url.URL → String)
  | [] => none
  | c :: cs =>
    match lastURLTagFunc cs with
    | some f => some f
    | none => c.urlTagArg

/-- The argument of the last `MWComponentName` call in the list, if any. -/
def lastComponentName : List OptionCall → Option String
  | [] => none
  | c :: cs =>
    match lastComponentName cs with
    | some n => some n
    | none => c.componentArg

/-! ### Concrete inputs -/

/-- A tracer that finds no span context in the headers. -/
def exampleTracer : opentracing.Tracer := ⟨7, fun _ => none⟩

/-- The request `GET /orders/42` without trace headers. -/
def ordersRequest : http.Request :=
  ⟨"GET", ⟨"", "", "/orders/42", "", "/orders/42"⟩, [], .background⟩

/-- The same request with a context that already carries span 4 and a value. -/
def ordersRequestInSpan : http.Request :=
  { ordersRequest with
    ctx := .withSpan (.withValue .background 1 10) (some (.started 4)) }

/-- A fresh process serving `GET /orders/42`; the writer holds status 200. -/
def exampleState : State := ⟨⟨exampleTracer, 0⟩, ⟨ordersRequest, 200⟩, [], []⟩

/-- A process serving the request whose context already carries a span. -/
def exampleStateInSpan : State :=
  ⟨⟨exampleTracer, 5⟩, ⟨ordersRequestInSpan, 200⟩, [], []⟩

/-- A chain that writes status 201 and returns. -/
def returningChain : Chain := fun c w => (none, { c with status := 201 }, w)

/-- A chain that panics. -/
def panickingChain : Chain := fun c w => (some "boom", c, w)

/-- A chain that sets the status 70000 on the writer (`c.Status(70000)`)
and returns. -/
def wideStatusChain : Chain := fun c w => (none, { c with status := 70000 }, w)

/-- A context carrying span 4. -/
def ctxWithSpan : context.Context := .withSpan (.withValue .background 1 10) (some (.started 4))

/-- A context carrying a value but no span. -/
def ctxWithoutSpan : context.Context := .withValue .background 1 10

/-- The tracer the working jaeger library constructs. -/
def workingTracer : opentracing.Tracer := ⟨9, fun _ => none⟩

/-- What `Close` of the working closer does: the first call closes silently;
a repeated call logs an error through the adapter and still returns no
error, as the reporter of jaeger does. -/
def workingClose : CloseFunc := fun t =>
  if Event.Close 3 ∈ t then
    ([.Error "Repeated attempt to close the reporter is ignored"], none)
  else ([], none)

/-- The closer the working library returns when configured with logger 2. -/
def workingCloser : Closer := ⟨3, ⟨⟨2⟩⟩, workingClose⟩

/-- A jaeger library whose tracer construction succeeds, with one info line
logged through the adapter on the way. -/
def workingLib : JaegerLib :=
  ⟨fun cfg => (cfg, none),
    fun _ _ _ => ([.Infof ⟨"Initializing %s", [.str "reporter"], "Initializing reporter"⟩],
      .ok (workingTracer, 3, workingClose))⟩

/-- A jaeger library whose tracer construction fails. -/
def failingLib : JaegerLib :=
  ⟨fun cfg => (cfg, none), fun _ _ _ => ([], .error "unknown sampler type")⟩

/-- The process right after `InitJaeger` with the working library. -/
def stateAfterInit : State :=
  (tracer.InitJaeger workingLib "svc" ⟨1⟩ ⟨2⟩ exampleState).2

/-- The process after `InitJaeger` and one call of the teardown function. -/
def stateAfterTeardown : State :=
  (tracer.teardown workingCloser ⟨2⟩ stateAfterInit).2

/-! ## Lemmas on the execution model -/

theorem Go.bind_apply {α β : Type} (m : Go α) (f : α → Go β) (s : State) :
    (m >>= f) s = Go.bind m f s := rfl

theorem Go.pure_apply {α : Type} (a : α) (s : State) : (pure a : Go α) s = (.ok a, s) := rfl

theorem callsOf_append (s : State) (w : World) (c : gin.Context) (l : List Event)
    (d : List Deferred) : callsOf s ⟨w, c, s.trace ++ l, d⟩ = l := by
  simp [callsOf]

/-! ## The middleware (`gin.go`) -/

section middleware
open opentracing tracer

/-- A request the span filter rejects: the handler only runs the chain. -/
theorem handler_filtered (tr : opentracing.Tracer) (opts : mwOptions) (cn : String)
    (rest : Chain) (s : State) (hf : opts.spanFilter s.c.Request = false) :
    handler tr opts cn rest s =
      match rest s.c s.world with
      | (none, c, w) => (.ok (), ⟨w, c, s.trace ++ [.Next s.c.Request], s.defers⟩)
      | (some v, c, w) => (.panic v, ⟨w, c, s.trace ++ [.Next s.c.Request], s.defers⟩) := by
  rcases h : rest s.c s.world with ⟨_ | v, c, w⟩ <;>
    simp [handler, Go.call, Go.bind_apply, Go.bind, gin.Request, hf, gin.Next, Go.pure_apply, h,
      Go.runDefers]

/-- A request the span filter accepts: the three ways the handler can end. -/
theorem handler_traced (tr : opentracing.Tracer) (opts : mwOptions) (cn : String)
    (rest : Chain) (s : State) (hf : opts.spanFilter s.c.Request = true) :
    handler tr opts cn rest s =
      match opts.spanObserver (Span.started s.world.nextSpan) s.c.Request
          ⟨s.world.globalTracer, s.world.nextSpan + 1⟩ with
      | (some v, w1) =>
        (.panic v, ⟨w1, s.c, s.trace ++
          [Event.Extract tr.id s.c.Request.Header,
            .StartSpan tr.id (opts.opNameFunc s.c.Request)
              (applyOptions [ext.RPCServerOption (tr.Extract s.c.Request.Header)])
              (Span.started s.world.nextSpan),
            .SetTag (Span.started s.world.nextSpan) ext.HTTPMethod (.str s.c.Request.Method),
            .SetTag (Span.started s.world.nextSpan) ext.HTTPUrl
              (.str (opts.urlTagFunc s.c.Request.URL)),
            .SetTag (Span.started s.world.nextSpan) ext.Component (.str cn),
            .spanObserver (Span.started s.world.nextSpan) s.c.Request,
            .Finish (Span.started s.world.nextSpan)], s.defers⟩)
      | (none, w1) =>
        match rest ⟨s.c.Request.WithContext
            (ContextWithSpan s.c.Request.Context (Span.started s.world.nextSpan)), s.c.status⟩ w1 with
        | (some v, c2, w2) =>
          (.panic v, ⟨w2, c2, s.trace ++
            [Event.Extract tr.id s.c.Request.Header,
              .StartSpan tr.id (opts.opNameFunc s.c.Request)
                (applyOptions [ext.RPCServerOption (tr.Extract s.c.Request.Header)])
                (Span.started s.world.nextSpan),
              .SetTag (Span.started s.world.nextSpan) ext.HTTPMethod (.str s.c.Request.Method),
              .SetTag (Span.started s.world.nextSpan) ext.HTTPUrl
                (.str (opts.urlTagFunc s.c.Request.URL)),
              .SetTag (Span.started s.world.nextSpan) ext.Component (.str cn),
              .spanObserver (Span.started s.world.nextSpan) s.c.Request,
              .Next (s.c.Request.WithContext
                (ContextWithSpan s.c.Request.Context (Span.started s.world.nextSpan))),
              .Finish (Span.started s.world.nextSpan)], s.defers⟩)
        | (none, c2, w2) =>
          (.ok (), ⟨w2, c2, s.trace ++
            [Event.Extract tr.id s.c.Request.Header,
              .StartSpan tr.id (opts.opNameFunc s.c.Request)
                (applyOptions [ext.RPCServerOption (tr.Extract s.c.Request.Header)])
                (Span.started s.world.nextSpan),
              .SetTag (Span.started s.world.nextSpan) ext.HTTPMethod (.str s.c.Request.Method),
              .SetTag (Span.started s.world.nextSpan) ext.HTTPUrl
                (.str (opts.urlTagFunc s.c.Request.URL)),
              .SetTag (Span.started s.world.nextSpan) ext.Component (.str cn),
              .spanObserver (Span.started s.world.nextSpan) s.c.Request,
              .Next (s.c.Request.WithContext
                (ContextWithSpan s.c.Request.Context (Span.started s.world.nextSpan))),
              .SetTag (Span.started s.world.nextSpan) ext.HTTPStatusCode
                (.uint16 (uint16 c2.status)),
              .Finish (Span.started s.world.nextSpan)], s.defers⟩) := by
  rcases ho : opts.spanObserver (Span.started s.world.nextSpan) s.c.Request
      ⟨s.world.globalTracer, s.world.nextSpan + 1⟩ with ⟨_ | v, w1⟩
  · rcases hn : rest ⟨s.c.Request.WithContext
        (ContextWithSpan s.c.Request.Context (Span.started s.world.nextSpan)), s.c.status⟩ w1
        with ⟨_ | v, c2, w2⟩ <;>
      simp [handler, Go.call, Go.bind_apply, Go.bind, gin.Request, hf, gin.Next, Go.pure_apply,
        ho, hn, Go.runDefers, Tracer.ExtractHTTP, Tracer.StartSpan, Go.emit, Go.defer,
        Span.SetTag, Go.callUser, gin.setRequest, gin.Status, Go.runDeferred]
  · simp [handler, Go.call, Go.bind_apply, Go.bind, gin.Request, hf, gin.Next, Go.pure_apply, ho,
      Go.runDefers, Tracer.ExtractHTTP, Tracer.StartSpan, Go.emit, Go.defer, Span.SetTag,
      Go.callUser, gin.setRequest, gin.Status, Go.runDeferred]

end middleware

section middleware_cases
open opentracing tracer

/-- The span observer panics: the deferred `Finish` is the last call. -/
theorem handler_observer_panics (tr : opentracing.Tracer) (opts : mwOptions) (cn : String)
    (rest : Chain) (s : State) (hf : opts.spanFilter s.c.Request = true)
    (v : String) (w1 : World)
    (ho : opts.spanObserver (Span.started s.world.nextSpan) s.c.Request
      ⟨s.world.globalTracer, s.world.nextSpan + 1⟩ = (some v, w1)) :
    handler tr opts cn rest s =
      (.panic v, ⟨w1, s.c, s.trace ++
        [Event.Extract tr.id s.c.Request.Header,
          .StartSpan tr.id (opts.opNameFunc s.c.Request)
            (applyOptions [ext.RPCServerOption (tr.Extract s.c.Request.Header)])
            (Span.started s.world.nextSpan),
          .SetTag (Span.started s.world.nextSpan) ext.HTTPMethod (.str s.c.Request.Method),
          .SetTag (Span.started s.world.nextSpan) ext.HTTPUrl
            (.str (opts.urlTagFunc s.c.Request.URL)),
          .SetTag (Span.started s.world.nextSpan) ext.Component (.str cn),
          .spanObserver (Span.started s.world.nextSpan) s.c.Request,
          .Finish (Span.started s.world.nextSpan)], s.defers⟩) := by
  rw [handler_traced _ _ _ _ _ hf]
  simp only [ho]

/-- The next handler panics: the deferred `Finish` is the last call and no
status code is tagged. -/
theorem handler_next_panics (tr : opentracing.Tracer) (opts : mwOptions) (cn : String)
    (rest : Chain) (s : State) (hf : opts.spanFilter s.c.Request = true)
    (v : String) (w1 w2 : World) (c2 : gin.Context)
    (ho : opts.spanObserver (Span.started s.world.nextSpan) s.c.Request
      ⟨s.world.globalTracer, s.world.nextSpan + 1⟩ = (none, w1))
    (hn : rest ⟨s.c.Request.WithContext
      (ContextWithSpan s.c.Request.Context (Span.started s.world.nextSpan)), s.c.status⟩ w1 =
        (some v, c2, w2)) :
    handler tr opts cn rest s =
      (.panic v, ⟨w2, c2, s.trace ++
        [Event.Extract tr.id s.c.Request.Header,
          .StartSpan tr.id (opts.opNameFunc s.c.Request)
            (applyOptions [ext.RPCServerOption (tr.Extract s.c.Request.Header)])
            (Span.started s.world.nextSpan),
          .SetTag (Span.started s.world.nextSpan) ext.HTTPMethod (.str s.c.Request.Method),
          .SetTag (Span.started s.world.nextSpan) ext.HTTPUrl
            (.str (opts.urlTagFunc s.c.Request.URL)),
          .SetTag (Span.started s.world.nextSpan) ext.Component (.str cn),
          .spanObserver (Span.started s.world.nextSpan) s.c.Request,
          .Next (s.c.Request.WithContext
            (ContextWithSpan s.c.Request.Context (Span.started s.world.nextSpan))),
          .Finish (Span.started s.world.nextSpan)], s.defers⟩) := by
  rw [handler_traced _ _ _ _ _ hf]
  simp only [ho, hn]

/-- The next handler returns: the status code is tagged, then the deferred
`Finish` runs. -/
theorem handler_next_returns (tr : opentracing.Tracer) (opts : mwOptions) (cn : String)
    (rest : Chain) (s : State) (hf : opts.spanFilter s.c.Request = true)
    (w1 w2 : World) (c2 : gin.Context)
    (ho : opts.spanObserver (Span.started s.world.nextSpan) s.c.Request
      ⟨s.world.globalTracer, s.world.nextSpan + 1⟩ = (none, w1))
    (hn : rest ⟨s.c.Request.WithContext
      (ContextWithSpan s.c.Request.Context (Span.started s.world.nextSpan)), s.c.status⟩ w1 =
        (none, c2, w2)) :
    handler tr opts cn rest s =
      (.ok (), ⟨w2, c2, s.trace ++
        [Event.Extract tr.id s.c.Request.Header,
          .StartSpan tr.id (opts.opNameFunc s.c.Request)
            (applyOptions [ext.RPCServerOption (tr.Extract s.c.Request.Header)])
            (Span.started s.world.nextSpan),
          .SetTag (Span.started s.world.nextSpan) ext.HTTPMethod (.str s.c.Request.Method),
          .SetTag (Span.started s.world.nextSpan) ext.HTTPUrl
            (.str (opts.urlTagFunc s.c.Request.URL)),
          .SetTag (Span.started s.world.nextSpan) ext.Component (.str cn),
          .spanObserver (Span.started s.world.nextSpan) s.c.Request,
          .Next (s.c.Request.WithContext
            (ContextWithSpan s.c.Request.Context (Span.started s.world.nextSpan))),
          .SetTag (Span.started s.world.nextSpan) ext.HTTPStatusCode
            (.uint16 (uint16 c2.status)),
          .Finish (Span.started s.world.nextSpan)], s.defers⟩) := by
  rw [handler_traced _ _ _ _ _ hf]
  simp only [ho, hn]

end middleware_cases

/-! ## The options of the middleware -/

section option_lemmas
open tracer

theorem foldl_opNameFunc (calls : List OptionCall) : ∀ init : mwOptions,
    ((calls.map OptionCall.build).foldl (fun opts opt => opt opts) init).opNameFunc =
      (lastOpNameFunc calls).getD init.opNameFunc := by
  induction calls with
  | nil => intro init; rfl
  | cons c cs ih =>
    intro init
    simp only [List.map_cons, List.foldl_cons, ih, lastOpNameFunc]
    cases h : lastOpNameFunc cs with
    | some f => rfl
    | none => cases c <;> rfl

theorem foldl_urlTagFunc (calls : List OptionCall) : ∀ init : mwOptions,
    ((calls.map OptionCall.build).foldl (fun opts opt => opt opts) init).urlTagFunc =
      (lastURLTagFunc calls).getD init.urlTagFunc := by
  induction calls with
  | nil => intro init; rfl
  | cons c cs ih =>
    intro init
    simp only [List.map_cons, List.foldl_cons, ih, lastURLTagFunc]
    cases h : lastURLTagFunc cs with
    | some f => rfl
    | none => cases c <;> rfl

theorem foldl_componentName (calls : List OptionCall) : ∀ init : mwOptions,
    ((calls.map OptionCall.build).foldl (fun opts opt => opt opts) init).componentName =
      (lastComponentName calls).getD init.componentName := by
  induction calls with
  | nil => intro init; rfl
  | cons c cs ih =>
    intro init
    simp only [List.map_cons, List.foldl_cons, ih, lastComponentName]
    cases h : lastComponentName cs with
    | some f => rfl
    | none => cases c <;> rfl

end option_lemmas

/-! ## Claims on the middleware -/

section middleware_claims
open tracer
open opentracing (Span StartSpanOptions ContextWithSpan SpanFromContext)

/-- C1: for a request the span filter accepts, the handler returned by
`Tracer` makes exactly one `StartSpan` call and exactly one `Finish` call.
Its calls are `pre`, the `StartSpan` on the given tracer, `mid`, the `Finish`
of the span just started; the next handler is never dispatched in `pre`, and
once the span observer has returned it is dispatched exactly once, in `mid`,
whether it then returns (the handler returns) or panics (the panic
propagates after the `Finish`). -/
theorem C1_span_started_once_finished_once (tr : opentracing.Tracer)
    (options : List MWOption) (rest : Chain) (s : State)
    (hf : (applyMWOptions options).spanFilter s.c.Request = true) :
    ((callsOf s (Tracer tr options rest s).2).filter Event.isStartSpan).length = 1 ∧
    (callsOf s (Tracer tr options rest s).2).filter Event.isFinish =
      [Event.Finish (Span.started s.world.nextSpan)] ∧
    ∃ (pre mid : List Event) (opName : String) (o : StartSpanOptions),
      (Tracer tr options rest s).2.trace =
        s.trace ++ (pre ++ [Event.StartSpan tr.id opName o (Span.started s.world.nextSpan)] ++
          mid ++ [Event.Finish (Span.started s.world.nextSpan)]) ∧
      (∀ e ∈ pre ++ mid, e.isStartSpan = false ∧ e.isFinish = false) ∧
      (∀ e ∈ pre, e.isNext = false) ∧
      (mid.filter Event.isNext).length ≤ 1 ∧
      (∀ w1, (applyMWOptions options).spanObserver (Span.started s.world.nextSpan) s.c.Request
            ⟨s.world.globalTracer, s.world.nextSpan + 1⟩ = (none, w1) →
          (mid.filter Event.isNext).length = 1 ∧
          (Tracer tr options rest s).1 =
            match (rest ⟨s.c.Request.WithContext (ContextWithSpan s.c.Request.Context
                (Span.started s.world.nextSpan)), s.c.status⟩ w1).1 with
            | none => .ok ()
            | some v => .panic v) := by
  rcases ho : (applyMWOptions options).spanObserver (Span.started s.world.nextSpan) s.c.Request
      ⟨s.world.globalTracer, s.world.nextSpan + 1⟩ with ⟨_ | v, w1⟩
  · rcases hn : rest ⟨s.c.Request.WithContext
        (ContextWithSpan s.c.Request.Context (Span.started s.world.nextSpan)), s.c.status⟩ w1
        with ⟨_ | v, c2, w2⟩
    · have hh : Tracer tr options rest s = _ :=
        handler_next_returns tr _ (componentNameOf (applyMWOptions options)) rest s hf
          w1 w2 c2 ho hn
      simp only [hh, callsOf_append]
      refine ⟨by simp [List.filter, Event.isStartSpan], by simp [List.filter, Event.isFinish],
        [_], [_, _, _, _, _, _], _, _, rfl, ?_, ?_, ?_, ?_⟩
      · simp [Event.isStartSpan, Event.isFinish]
      · simp [Event.isNext]
      · simp [List.filter, Event.isNext]
      · intro w3 hw
        cases hw
        exact ⟨by simp [List.filter, Event.isNext], by rw [hn]⟩
    · have hh : Tracer tr options rest s = _ :=
        handler_next_panics tr _ (componentNameOf (applyMWOptions options)) rest s hf
          v w1 w2 c2 ho hn
      simp only [hh, callsOf_append]
      refine ⟨by simp [List.filter, Event.isStartSpan], by simp [List.filter, Event.isFinish],
        [_], [_, _, _, _, _], _, _, rfl, ?_, ?_, ?_, ?_⟩
      · simp [Event.isStartSpan, Event.isFinish]
      · simp [Event.isNext]
      · simp [List.filter, Event.isNext]
      · intro w3 hw
        cases hw
        exact ⟨by simp [List.filter, Event.isNext], by rw [hn]⟩
  · have hh : Tracer tr options rest s = _ :=
      handler_observer_panics tr _ (componentNameOf (applyMWOptions options)) rest s hf
        v w1 ho
    simp only [hh, callsOf_append]
    refine ⟨by simp [List.filter, Event.isStartSpan], by simp [List.filter, Event.isFinish],
      [_], [_, _, _, _], _, _, rfl, ?_, ?_, ?_, ?_⟩
    · simp [Event.isStartSpan, Event.isFinish]
    · simp [Event.isNext]
    · simp [List.filter, Event.isNext]
    · intro w3 hw
      cases hw

/-- Witness of C1: `GET /orders/42` with the default options and a next
handler that panics. -/
theorem C1_witness_next_handler_panics :
    (applyMWOptions []).spanFilter exampleState.c.Request = true ∧
    ((callsOf exampleState (Tracer exampleTracer [] panickingChain exampleState).2).filter
      Event.isStartSpan).length = 1 ∧
    (callsOf exampleState (Tracer exampleTracer [] panickingChain exampleState).2).filter
      Event.isFinish = [Event.Finish (Span.started exampleState.world.nextSpan)] ∧
    ∃ (pre mid : List Event) (opName : String) (o : StartSpanOptions),
      (Tracer exampleTracer [] panickingChain exampleState).2.trace =
        exampleState.trace ++ (pre ++ [Event.StartSpan exampleTracer.id opName o
          (Span.started exampleState.world.nextSpan)] ++
          mid ++ [Event.Finish (Span.started exampleState.world.nextSpan)]) ∧
      (∀ e ∈ pre ++ mid, e.isStartSpan = false ∧ e.isFinish = false) ∧
      (∀ e ∈ pre, e.isNext = false) ∧
      (mid.filter Event.isNext).length ≤ 1 ∧
      (∀ w1, (applyMWOptions []).spanObserver (Span.started exampleState.world.nextSpan)
            exampleState.c.Request
            ⟨exampleState.world.globalTracer, exampleState.world.nextSpan + 1⟩ = (none, w1) →
          (mid.filter Event.isNext).length = 1 ∧
          (Tracer exampleTracer [] panickingChain exampleState).1 =
            match (panickingChain ⟨exampleState.c.Request.WithContext
                (ContextWithSpan exampleState.c.Request.Context
                  (Span.started exampleState.world.nextSpan)), exampleState.c.status⟩ w1).1 with
            | none => .ok ()
            | some v => .panic v) :=
  ⟨rfl, C1_span_started_once_finished_once exampleTracer [] panickingChain exampleState rfl⟩

/-- C2, as the code has it: once the span observer has returned, a next
handler that returns makes the handler tag the span with `http.status_code`,
the writer's status converted to `uint16` (the status itself when it lies in
`0..65535`), as its last call before the `Finish`; a next handler that panics
makes the handler finish the span without any `http.status_code` tag, and the
panic propagates. -/
theorem C2_status_code_tagged_when_next_returns (tr : opentracing.Tracer)
    (options : List MWOption) (rest : Chain) (s : State)
    (hf : (applyMWOptions options).spanFilter s.c.Request = true) (w1 : World)
    (ho : (applyMWOptions options).spanObserver (Span.started s.world.nextSpan) s.c.Request
      ⟨s.world.globalTracer, s.world.nextSpan + 1⟩ = (none, w1)) :
    match rest ⟨s.c.Request.WithContext (ContextWithSpan s.c.Request.Context
        (Span.started s.world.nextSpan)), s.c.status⟩ w1 with
    | (none, c2, _) =>
      (Tracer tr options rest s).1 = .ok () ∧
      (Tracer tr options rest s).2.c = c2 ∧
      (∃ pre, callsOf s (Tracer tr options rest s).2 =
          pre ++ [Event.SetTag (Span.started s.world.nextSpan) "http.status_code"
              (.uint16 (uint16 c2.status)),
            Event.Finish (Span.started s.world.nextSpan)] ∧
        ∀ e ∈ pre, e.isSetTagOf "http.status_code" = false ∧ e.isFinish = false) ∧
      (0 ≤ c2.status → c2.status < 65536 → (uint16 c2.status : Int) = c2.status)
    | (some v, _, _) =>
      (Tracer tr options rest s).1 = .panic v ∧
      ∃ pre, callsOf s (Tracer tr options rest s).2 =
          pre ++ [Event.Finish (Span.started s.world.nextSpan)] ∧
        ∀ e ∈ pre, e.isSetTagOf "http.status_code" = false ∧ e.isFinish = false := by
  rcases hn : rest ⟨s.c.Request.WithContext
      (ContextWithSpan s.c.Request.Context (Span.started s.world.nextSpan)), s.c.status⟩ w1
      with ⟨_ | v, c2, w2⟩
  · have hh : Tracer tr options rest s = _ :=
      handler_next_returns tr _ (componentNameOf (applyMWOptions options)) rest s hf w1 w2 c2 ho hn
    simp only [hh, callsOf_append]
    refine ⟨trivial, trivial, ⟨[_, _, _, _, _, _, _], rfl, ?_⟩, ?_⟩
    · simp [Event.isSetTagOf, Event.isFinish, ext.HTTPMethod, ext.HTTPUrl, ext.Component]
    · intro h0 h1
      simp only [uint16]
      rw [Int.toNat_of_nonneg (Int.emod_nonneg _ (by decide))]
      exact Int.emod_eq_of_lt h0 h1
  · have hh : Tracer tr options rest s = _ :=
      handler_next_panics tr _ (componentNameOf (applyMWOptions options)) rest s hf v w1 w2 c2 ho hn
    simp only [hh, callsOf_append]
    refine ⟨trivial, [_, _, _, _, _, _, _], rfl, ?_⟩
    simp [Event.isSetTagOf, Event.isFinish, ext.HTTPMethod, ext.HTTPUrl, ext.Component]

/-- Witness of C2: `GET /orders/42`, the next handler writes status 201 and
returns. -/
theorem C2_witness_status_201 :
    (applyMWOptions []).spanFilter exampleState.c.Request = true ∧
    (applyMWOptions []).spanObserver (Span.started 0) exampleState.c.Request
      ⟨exampleTracer, 1⟩ = (none, ⟨exampleTracer, 1⟩) ∧
    (Tracer exampleTracer [] returningChain exampleState).1 = .ok () ∧
    (Tracer exampleTracer [] returningChain exampleState).2.c =
      ⟨ordersRequest.WithContext (ContextWithSpan ordersRequest.Context (Span.started 0)), 201⟩ ∧
    (∃ pre, callsOf exampleState (Tracer exampleTracer [] returningChain exampleState).2 =
        pre ++ [Event.SetTag (Span.started 0) "http.status_code" (.uint16 (uint16 201)),
          Event.Finish (Span.started 0)] ∧
      ∀ e ∈ pre, e.isSetTagOf "http.status_code" = false ∧ e.isFinish = false) ∧
    ((0 : Int) ≤ 201 → (201 : Int) < 65536 → (uint16 201 : Int) = 201) :=
  ⟨rfl, rfl, C2_status_code_tagged_when_next_returns exampleTracer [] returningChain
    exampleState rfl ⟨exampleTracer, 1⟩ rfl⟩

/-- Counterexample to C2 as stated, on `GET /orders/42` with the default
options (the filter accepts).  With a next handler that panics the span is
finished but no call tags `http.status_code`.  With a next handler that
leaves the status 70000 on the writer and returns, the tag is 4464, the low
16 bits, not the status. -/
theorem C2_counterexample_panic_or_wide_status :
    (applyMWOptions []).spanFilter exampleState.c.Request = true ∧
    (Tracer exampleTracer [] panickingChain exampleState).1 = .panic "boom" ∧
    Event.Finish (Span.started 0) ∈
      callsOf exampleState (Tracer exampleTracer [] panickingChain exampleState).2 ∧
    (callsOf exampleState (Tracer exampleTracer [] panickingChain exampleState).2).any
      (Event.isSetTagOf "http.status_code") = false ∧
    (Tracer exampleTracer [] wideStatusChain exampleState).2.c.status = 70000 ∧
    (callsOf exampleState (Tracer exampleTracer [] wideStatusChain exampleState).2).filter
      (Event.isSetTagOf "http.status_code") =
        [Event.SetTag (Span.started 0) "http.status_code" (.uint16 4464)] := by
  decide

/-- C3: for a request the span filter rejects, the only call of the handler
is the dispatch of the next handler, once, with the request (and so its
context) as it was: no `Extract`, no `StartSpan`; the handler ends as the
chain ends, in the state the chain leaves. -/
theorem C3_filtered_request_untraced (tr : opentracing.Tracer)
    (options : List MWOption) (rest : Chain) (s : State)
    (hf : (applyMWOptions options).spanFilter s.c.Request = false) :
    callsOf s (Tracer tr options rest s).2 = [Event.Next s.c.Request] ∧
    (∀ e ∈ callsOf s (Tracer tr options rest s).2,
      e.isExtract = false ∧ e.isStartSpan = false) ∧
    (Tracer tr options rest s).1 =
      (match (rest s.c s.world).1 with
        | none => .ok ()
        | some v => .panic v) ∧
    (Tracer tr options rest s).2.c = (rest s.c s.world).2.1 ∧
    (Tracer tr options rest s).2.world = (rest s.c s.world).2.2 := by
  have hh : Tracer tr options rest s = _ :=
    handler_filtered tr _ (componentNameOf (applyMWOptions options)) rest s hf
  rcases hn : rest s.c s.world with ⟨_ | v, c2, w2⟩ <;>
    simp only [hh, hn, callsOf_append] <;>
    simp [Event.isExtract, Event.isStartSpan]

/-- Witness of C3: a filter that rejects every request. -/
theorem C3_witness_rejecting_filter :
    (applyMWOptions [MWSpanFilter fun _ => false]).spanFilter exampleState.c.Request = false ∧
    (callsOf exampleState
        (Tracer exampleTracer [MWSpanFilter fun _ => false] returningChain exampleState).2 =
      [Event.Next exampleState.c.Request] ∧
    (∀ e ∈ callsOf exampleState
        (Tracer exampleTracer [MWSpanFilter fun _ => false] returningChain exampleState).2,
      e.isExtract = false ∧ e.isStartSpan = false) ∧
    (Tracer exampleTracer [MWSpanFilter fun _ => false] returningChain exampleState).1 =
      (match (returningChain exampleState.c exampleState.world).1 with
        | none => .ok ()
        | some v => .panic v) ∧
    (Tracer exampleTracer [MWSpanFilter fun _ => false] returningChain exampleState).2.c =
      (returningChain exampleState.c exampleState.world).2.1 ∧
    (Tracer exampleTracer [MWSpanFilter fun _ => false] returningChain exampleState).2.world =
      (returningChain exampleState.c exampleState.world).2.2) :=
  ⟨rfl, C3_filtered_request_untraced exampleTracer [MWSpanFilter fun _ => false]
    returningChain exampleState rfl⟩

/-- C7: for a request the span filter accepts, once the span observer has
returned the next handler is dispatched exactly once, after the one
`StartSpan`, on a gin context whose request differs from the original only in
its context: the span found in that context is the span just started
(whatever span the original context carried), and every other value of the
original context is still found in it. -/
theorem C7_next_handler_sees_started_span (tr : opentracing.Tracer)
    (options : List MWOption) (rest : Chain) (s : State)
    (hf : (applyMWOptions options).spanFilter s.c.Request = true) (w1 : World)
    (ho : (applyMWOptions options).spanObserver (Span.started s.world.nextSpan) s.c.Request
      ⟨s.world.globalTracer, s.world.nextSpan + 1⟩ = (none, w1)) :
    ∃ (r1 : http.Request) (pre post : List Event) (opName : String) (o : StartSpanOptions),
      callsOf s (Tracer tr options rest s).2 = pre ++ [Event.Next r1] ++ post ∧
      pre.filter Event.isStartSpan =
        [Event.StartSpan tr.id opName o (Span.started s.world.nextSpan)] ∧
      (∀ e ∈ pre ++ post, e.isNext = false) ∧
      (Tracer tr options rest s).2.c = (rest ⟨r1, s.c.status⟩ w1).2.1 ∧
      SpanFromContext r1.Context = some (Span.started s.world.nextSpan) ∧
      (∀ key, r1.Context.Value key = s.c.Request.Context.Value key) ∧
      r1.Method = s.c.Request.Method ∧ r1.URL = s.c.Request.URL ∧
      r1.Header = s.c.Request.Header := by
  rcases hn : rest ⟨s.c.Request.WithContext
      (ContextWithSpan s.c.Request.Context (Span.started s.world.nextSpan)), s.c.status⟩ w1
      with ⟨_ | v, c2, w2⟩
  · have hh : Tracer tr options rest s = _ :=
      handler_next_returns tr _ (componentNameOf (applyMWOptions options)) rest s hf w1 w2 c2 ho hn
    simp only [hh, callsOf_append]
    refine ⟨_, [_, _, _, _, _, _], [_, _], (applyMWOptions options).opNameFunc s.c.Request,
      opentracing.applyOptions [ext.RPCServerOption (tr.Extract s.c.Request.Header)],
      rfl, ?_, ?_, ?_, rfl, ?_, rfl, rfl, rfl⟩
    · simp [List.filter, Event.isStartSpan]
    · simp [Event.isNext]
    · rw [hn]
    · intro key; rfl
  · have hh : Tracer tr options rest s = _ :=
      handler_next_panics tr _ (componentNameOf (applyMWOptions options)) rest s hf v w1 w2 c2 ho hn
    simp only [hh, callsOf_append]
    refine ⟨_, [_, _, _, _, _, _], [_], (applyMWOptions options).opNameFunc s.c.Request,
      opentracing.applyOptions [ext.RPCServerOption (tr.Extract s.c.Request.Header)],
      rfl, ?_, ?_, ?_, rfl, ?_, rfl, rfl, rfl⟩
    · simp [List.filter, Event.isStartSpan]
    · simp [Event.isNext]
    · rw [hn]
    · intro key; rfl

/-- Witness of C7: the request context already carries span 4 and the value
10 under key 1; the next handler finds span 5 and still finds the value. -/
theorem C7_witness_span_replaced :
    (applyMWOptions []).spanFilter exampleStateInSpan.c.Request = true ∧
    (applyMWOptions []).spanObserver (Span.started 5) exampleStateInSpan.c.Request
      ⟨exampleTracer, 6⟩ = (none, ⟨exampleTracer, 6⟩) ∧
    SpanFromContext ordersRequestInSpan.Context = some (Span.started 4) ∧
    ∃ (r1 : http.Request) (pre post : List Event) (opName : String) (o : StartSpanOptions),
      callsOf exampleStateInSpan (Tracer exampleTracer [] returningChain exampleStateInSpan).2 =
        pre ++ [Event.Next r1] ++ post ∧
      pre.filter Event.isStartSpan = [Event.StartSpan exampleTracer.id opName o (Span.started 5)] ∧
      (∀ e ∈ pre ++ post, e.isNext = false) ∧
      (Tracer exampleTracer [] returningChain exampleStateInSpan).2.c =
        (returningChain ⟨r1, 200⟩ ⟨exampleTracer, 6⟩).2.1 ∧
      SpanFromContext r1.Context = some (Span.started 5) ∧
      (∀ key, r1.Context.Value key = ordersRequestInSpan.Context.Value key) ∧
      r1.Method = ordersRequestInSpan.Method ∧ r1.URL = ordersRequestInSpan.URL ∧
      r1.Header = ordersRequestInSpan.Header :=
  ⟨rfl, rfl, rfl, C7_next_handler_sees_started_span exampleTracer [] returningChain
    exampleStateInSpan rfl ⟨exampleTracer, 6⟩ rfl⟩

/-- C8: for a request the span filter accepts, the first calls of the
handler are `Extract`, `StartSpan` under the name `opNameFunc(request)`, the
tags `http.method` = the request method, `http.url` = `urlTagFunc(URL)` and
`component` = the component name, and only then the span observer (the next
handler comes later still).  Each setting is the argument of the last option
call for it and otherwise the default: the name `HTTP <method> <path>`, the
URL string, and the component `net/http`, which also replaces an empty
component name. -/
theorem C8_span_name_and_request_tags (tr : opentracing.Tracer)
    (calls : List OptionCall) (rest : Chain) (s : State)
    (hf : (applyMWOptions (calls.map OptionCall.build)).spanFilter s.c.Request = true) :
    ∃ (o : StartSpanOptions) (after : List Event),
      callsOf s (Tracer tr (calls.map OptionCall.build) rest s).2 =
        [Event.Extract tr.id s.c.Request.Header,
          Event.StartSpan tr.id
            ((lastOpNameFunc calls).getD (fun r => "HTTP " ++ r.Method ++ " " ++ r.URL.Path)
              s.c.Request)
            o (Span.started s.world.nextSpan),
          Event.SetTag (Span.started s.world.nextSpan) "http.method" (.str s.c.Request.Method),
          Event.SetTag (Span.started s.world.nextSpan) "http.url"
            (.str ((lastURLTagFunc calls).getD (fun u => u.String) s.c.Request.URL)),
          Event.SetTag (Span.started s.world.nextSpan) "component"
            (.str (match lastComponentName calls with
              | none => "net/http"
              | some n => if n = "" then "net/http" else n)),
          Event.spanObserver (Span.started s.world.nextSpan) s.c.Request] ++ after ∧
      (∀ e ∈ after, e.isSpanObserver = false ∧ e.isStartSpan = false) := by
  have h1 : (applyMWOptions (calls.map OptionCall.build)).opNameFunc =
      (lastOpNameFunc calls).getD (fun r => "HTTP " ++ r.Method ++ " " ++ r.URL.Path) :=
    foldl_opNameFunc calls defaultOptions
  have h2 : (applyMWOptions (calls.map OptionCall.build)).urlTagFunc =
      (lastURLTagFunc calls).getD (fun u => u.String) :=
    foldl_urlTagFunc calls defaultOptions
  have h3 : componentNameOf (applyMWOptions (calls.map OptionCall.build)) =
      (match lastComponentName calls with
        | none => "net/http"
        | some n => if n = "" then "net/http" else n) := by
    have h : (applyMWOptions (calls.map OptionCall.build)).componentName =
        (lastComponentName calls).getD "" := foldl_componentName calls defaultOptions
    unfold componentNameOf
    rw [h]
    cases lastComponentName calls with
    | none => rfl
    | some n => rfl
  rcases ho : (applyMWOptions (calls.map OptionCall.build)).spanObserver
      (Span.started s.world.nextSpan) s.c.Request
      ⟨s.world.globalTracer, s.world.nextSpan + 1⟩ with ⟨_ | v, w1⟩
  · rcases hn : rest ⟨s.c.Request.WithContext
        (ContextWithSpan s.c.Request.Context (Span.started s.world.nextSpan)), s.c.status⟩ w1
        with ⟨_ | v, c2, w2⟩
    · have hh : Tracer tr (calls.map OptionCall.build) rest s = _ :=
        handler_next_returns tr _ _ rest s hf w1 w2 c2 ho hn
      simp only [hh, callsOf_append, h1, h2, h3]
      exact ⟨_, [_, _, _], rfl, by simp [Event.isSpanObserver, Event.isStartSpan]⟩
    · have hh : Tracer tr (calls.map OptionCall.build) rest s = _ :=
        handler_next_panics tr _ _ rest s hf v w1 w2 c2 ho hn
      simp only [hh, callsOf_append, h1, h2, h3]
      exact ⟨_, [_, _], rfl, by simp [Event.isSpanObserver, Event.isStartSpan]⟩
  · have hh : Tracer tr (calls.map OptionCall.build) rest s = _ :=
      handler_observer_panics tr _ _ rest s hf v w1 ho
    simp only [hh, callsOf_append, h1, h2, h3]
    exact ⟨_, [_], rfl, by simp [Event.isSpanObserver, Event.isStartSpan]⟩

/-- Witness of C8: `GET /orders/42` with no options gives the name
`HTTP GET /orders/42` and the tags `http.method=GET`, `http.url=/orders/42`,
`component=net/http`. -/
theorem C8_witness_get_orders_42 :
    (applyMWOptions ([].map OptionCall.build)).spanFilter exampleState.c.Request = true ∧
    ∃ (o : StartSpanOptions) (after : List Event),
      callsOf exampleState (Tracer exampleTracer [] returningChain exampleState).2 =
        [Event.Extract 7 [],
          Event.StartSpan 7 "HTTP GET /orders/42" o (Span.started 0),
          Event.SetTag (Span.started 0) "http.method" (.str "GET"),
          Event.SetTag (Span.started 0) "http.url" (.str "/orders/42"),
          Event.SetTag (Span.started 0) "component" (.str "net/http"),
          Event.spanObserver (Span.started 0) ordersRequest] ++ after ∧
      (∀ e ∈ after, e.isSpanObserver = false ∧ e.isStartSpan = false) :=
  ⟨rfl, C8_span_name_and_request_tags exampleTracer [] returningChain exampleState rfl⟩

end middleware_claims

/-! ## The database span helper (`database.go`) -/

section database_lemmas
open opentracing tracer

theorem digitVal_digitChar (d : Nat) (h : d < 10) : digitVal (Nat.digitChar d) = d := by
  interval_cases d <;> rfl

/-- Reading the digits back gives the number: the decimal rendering loses nothing. -/
theorem toDigitsCore_value (fuel : Nat) : ∀ (n : Nat) (ds : List Char), n < fuel →
    (Nat.toDigitsCore 10 fuel n ds).foldl (fun a c => 10 * a + digitVal c) 0 =
      ds.foldl (fun a c => 10 * a + digitVal c) n := by
  induction fuel with
  | zero => intro n ds h; omega
  | succ k ih =>
    intro n ds h
    unfold Nat.toDigitsCore
    by_cases h0 : n / 10 = 0
    · have hn : n < 10 := by omega
      simp [h0, digitVal_digitChar n hn, Nat.mod_eq_of_lt hn]
    · have hk : n / 10 < k := by omega
      simp only [h0, if_false]
      rw [ih (n / 10) _ hk]
      simp only [List.foldl_cons, digitVal_digitChar _ (Nat.mod_lt n (by decide : 10 > 0))]
      congr 1
      omega

theorem fmtD_injective : Function.Injective fmtD := by
  intro a b h
  have h1 : Nat.toDigits 10 a = Nat.toDigits 10 b := by
    have : (Nat.toDigits 10 a).asString = (Nat.toDigits 10 b).asString := h
    exact congrArg String.data this
  have ha := toDigitsCore_value (a + 1) a [] (by omega)
  have hb := toDigitsCore_value (b + 1) b [] (by omega)
  simp only [List.foldl_nil] at ha hb
  unfold Nat.toDigits at h1
  rw [← ha, ← hb, h1]

theorem paramKey_injective : Function.Injective paramKey := by
  intro a b h
  apply fmtD_injective
  have := congrArg String.data h
  simp only [paramKey, String.data_append, List.append_cancel_left_eq] at this
  exact String.ext this

/-- The loop tags the parameters in order, under their indices. -/
theorem tagParams_run (span : Span) (params : List Value) : ∀ (i : Nat) (s : State),
    tagParams span i params s =
      (.ok (), { s with trace := s.trace ++
        (params.enumFrom i).map (fun ip => Event.SetTag span (paramKey ip.1) ip.2) }) := by
  induction params with
  | nil => intro i s; simp [tagParams, Go.pure_apply]
  | cons p ps ih =>
    intro i s
    simp [tagParams, Go.bind_apply, Go.bind, Span.SetTag, Go.emit, ih, paramKey]

/-- A context that carries a span: the three effects of the call. -/
theorem StartDBSpanFromContext_traced (ctx : context.Context) (opName : String)
    (params : List Value) (s : State) (parent : Span)
    (h : SpanFromContext ctx = some parent) :
    StartDBSpanFromContext ctx opName params s =
      (.ok (Span.started s.world.nextSpan,
          ContextWithSpan ctx (Span.started s.world.nextSpan)),
        ⟨⟨s.world.globalTracer, s.world.nextSpan + 1⟩, s.c,
          s.trace ++ (Event.StartSpan s.world.globalTracer.id opName
              ⟨[⟨.ChildOfRef, parent.Context⟩], []⟩ (Span.started s.world.nextSpan) ::
            params.enum.map (fun ip =>
              Event.SetTag (Span.started s.world.nextSpan) (paramKey ip.1) ip.2)),
          s.defers⟩) := by
  simp [StartDBSpanFromContext, h, Go.call, Go.bind_apply, Go.bind, Go.pure_apply,
    opentracing.StartSpan, Tracer.StartSpan, tagParams_run, Go.runDefers, applyOptions, ChildOf,
    List.enum]

/-- A context that carries no span: nothing happens. -/
theorem StartDBSpanFromContext_untraced (ctx : context.Context) (opName : String)
    (params : List Value) (s : State) (h : SpanFromContext ctx = none) :
    StartDBSpanFromContext ctx opName params s = (.ok (Span.noop, ctx), s) := by
  simp [StartDBSpanFromContext, h, Go.call, Go.bind_apply, Go.bind, Go.pure_apply,
    NoopTracer.StartSpan, Go.runDefers]

theorem tagsSet_setTags (span : Span) (kvs : List (Nat × Value)) :
    tagsSet span (kvs.map (fun ip => Event.SetTag span (paramKey ip.1) ip.2)) =
      kvs.map (fun ip => (paramKey ip.1, ip.2)) := by
  induction kvs with
  | nil => rfl
  | cons kv kvs ih => simp [tagsSet, ih]

theorem tagValue_of_not_mem (kvs : List (String × Value)) (key : String)
    (h : key ∉ kvs.map Prod.fst) : tagValue kvs key = none := by
  induction kvs with
  | nil => rfl
  | cons kv kvs ih =>
    obtain ⟨k, v⟩ := kv
    simp only [List.map_cons, List.mem_cons, not_or] at h
    simp [tagValue, ih h.2, Ne.symm h.1]

theorem tagValue_of_mem (kvs : List (String × Value)) (key : String) (v : Value)
    (hn : (kvs.map Prod.fst).Nodup) (h : (key, v) ∈ kvs) : tagValue kvs key = some v := by
  induction kvs with
  | nil => cases h
  | cons kv kvs ih =>
    obtain ⟨k, w⟩ := kv
    simp only [List.map_cons, List.nodup_cons] at hn
    rcases List.mem_cons.1 h with heq | hmem
    · cases heq
      simp [tagValue, tagValue_of_not_mem kvs key hn.1]
    · simp [tagValue, ih hn.2 hmem]

end database_lemmas

/-! ## Claims on the database span helper -/

section database_claims
open tracer
open opentracing (Span Value ContextWithSpan SpanFromContext)

/-- C4: when `ctx` carries the span `parent`, `StartDBSpanFromContext`
returns a span and a context such that: the one `StartSpan` of the call, its
first call, is on the global tracer, names the span `opName`, has the single
reference child-of `parent.Context()` and returns that span; the context is
`ctx` with the returned span bound, so the span found in it is the returned
span and the other values of `ctx` are kept. -/
theorem C4_db_span_is_child_of_context_span (ctx : context.Context) (opName : String)
    (params : List Value) (s : State) (parent : Span)
    (h : SpanFromContext ctx = some parent) :
    ∃ (span : Span) (ctx1 : context.Context),
      (StartDBSpanFromContext ctx opName params s).1 = .ok (span, ctx1) ∧
      (callsOf s (StartDBSpanFromContext ctx opName params s).2).head? =
        some (Event.StartSpan s.world.globalTracer.id opName
          ⟨[⟨.ChildOfRef, parent.Context⟩], []⟩ span) ∧
      (callsOf s (StartDBSpanFromContext ctx opName params s).2).filter Event.isStartSpan =
        [Event.StartSpan s.world.globalTracer.id opName
          ⟨[⟨.ChildOfRef, parent.Context⟩], []⟩ span] ∧
      ctx1 = ContextWithSpan ctx span ∧
      SpanFromContext ctx1 = some span ∧
      (∀ key, ctx1.Value key = ctx.Value key) := by
  rw [StartDBSpanFromContext_traced ctx opName params s parent h]
  refine ⟨_, _, rfl, ?_, ?_, rfl, rfl, fun _ => rfl⟩
  · simp [callsOf_append]
  · simp [callsOf_append, List.filter_cons, Event.isStartSpan, List.filter_map,
      List.filter_eq_nil_iff]

/-- Witness of C4: a context carrying span 4, operation `select`, two parameters. -/
theorem C4_witness_select_under_span_4 :
    SpanFromContext ctxWithSpan = some (Span.started 4) ∧
    ∃ (span : Span) (ctx1 : context.Context),
      (StartDBSpanFromContext ctxWithSpan "select" [.str "a", .other 3] exampleState).1 =
        .ok (span, ctx1) ∧
      (callsOf exampleState
          (StartDBSpanFromContext ctxWithSpan "select" [.str "a", .other 3] exampleState).2).head? =
        some (Event.StartSpan exampleState.world.globalTracer.id "select"
          ⟨[⟨.ChildOfRef, (Span.started 4).Context⟩], []⟩ span) ∧
      (callsOf exampleState
          (StartDBSpanFromContext ctxWithSpan "select" [.str "a", .other 3] exampleState).2).filter
          Event.isStartSpan =
        [Event.StartSpan exampleState.world.globalTracer.id "select"
          ⟨[⟨.ChildOfRef, (Span.started 4).Context⟩], []⟩ span] ∧
      ctx1 = ContextWithSpan ctxWithSpan span ∧
      SpanFromContext ctx1 = some span ∧
      (∀ key, ctx1.Value key = ctxWithSpan.Value key) :=
  ⟨rfl, C4_db_span_is_child_of_context_span ctxWithSpan "select" [.str "a", .other 3]
    exampleState (Span.started 4) rfl⟩

/-- C5: when `ctx` carries no span, `StartDBSpanFromContext` returns the
no-op span and `ctx` itself and leaves the machine state as it was: it makes
no call at all, so it starts no span on the global tracer and sets no tag. -/
theorem C5_no_span_in_context_gives_noop (ctx : context.Context) (opName : String)
    (params : List Value) (s : State) (h : SpanFromContext ctx = none) :
    StartDBSpanFromContext ctx opName params s = (.ok (Span.noop, ctx), s) ∧
    callsOf s (StartDBSpanFromContext ctx opName params s).2 = [] := by
  rw [StartDBSpanFromContext_untraced ctx opName params s h]
  exact ⟨rfl, by simp [callsOf]⟩

/-- Witness of C5: a context with a value but no span. -/
theorem C5_witness_context_without_span :
    SpanFromContext ctxWithoutSpan = none ∧
    StartDBSpanFromContext ctxWithoutSpan "select" [.str "a", .other 3] exampleState =
      (.ok (Span.noop, ctxWithoutSpan), exampleState) ∧
    callsOf exampleState
      (StartDBSpanFromContext ctxWithoutSpan "select" [.str "a", .other 3] exampleState).2 = [] :=
  ⟨rfl, C5_no_span_in_context_gives_noop ctxWithoutSpan "select" [.str "a", .other 3]
    exampleState rfl⟩

/-- C6: when `ctx` carries a span, the tags the call gives to the returned
span are exactly the pairs (`param.#i`, `params[i]`) in order (none for an
empty parameter list); the keys are pairwise distinct, so after the call the
tag `param.#i` holds `params[i]` for every `i < n`, and any other key holds
nothing. -/
theorem C6_db_span_param_tags (ctx : context.Context) (opName : String)
    (params : List Value) (s : State) (parent : Span)
    (h : SpanFromContext ctx = some parent) :
    ∃ (span : Span) (ctx1 : context.Context),
      (StartDBSpanFromContext ctx opName params s).1 = .ok (span, ctx1) ∧
      tagsSet span (callsOf s (StartDBSpanFromContext ctx opName params s).2) =
        params.enum.map (fun ip => ("param.#" ++ toString ip.1, ip.2)) ∧
      ((List.range params.length).map (fun i => "param.#" ++ toString i)).Nodup ∧
      (∀ (i : Nat) (hi : i < params.length),
        tagValue (tagsSet span (callsOf s (StartDBSpanFromContext ctx opName params s).2))
          ("param.#" ++ toString i) = some params[i]) ∧
      (∀ key : String, (∀ i < params.length, key ≠ "param.#" ++ toString i) →
        tagValue (tagsSet span (callsOf s (StartDBSpanFromContext ctx opName params s).2))
          key = none) := by
  rw [StartDBSpanFromContext_traced ctx opName params s parent h]
  have hk : (fun i : Nat => "param.#" ++ toString i) = paramKey := rfl
  have hkeys : (params.enum.map (fun ip => (paramKey ip.1, ip.2))).map Prod.fst =
      (List.range params.length).map paramKey := by
    rw [List.map_map, ← List.enum_map_fst params, List.map_map]
    rfl
  have hnd : ((List.range params.length).map paramKey).Nodup :=
    (List.nodup_range _).map paramKey_injective
  have htags : tagsSet (Span.started s.world.nextSpan)
      (Event.StartSpan s.world.globalTracer.id opName ⟨[⟨.ChildOfRef, parent.Context⟩], []⟩
          (Span.started s.world.nextSpan) ::
        params.enum.map (fun ip =>
          Event.SetTag (Span.started s.world.nextSpan) (paramKey ip.1) ip.2)) =
      params.enum.map (fun ip => (paramKey ip.1, ip.2)) := by
    simp [tagsSet, tagsSet_setTags]
  refine ⟨_, _, rfl, ?_, ?_, ?_, ?_⟩
  · rw [callsOf_append, htags]
    rfl
  · rw [hk]
    exact hnd
  · intro i hi
    rw [callsOf_append, htags]
    apply tagValue_of_mem _ _ _ (hkeys ▸ hnd)
    refine List.mem_map.2 ⟨(i, params[i]), ?_, rfl⟩
    rw [List.mk_mem_enum_iff_getElem?]
    simp [List.getElem?_eq_getElem hi]
  · intro key hkey
    rw [callsOf_append, htags]
    apply tagValue_of_not_mem
    rw [hkeys]
    intro hmem
    obtain ⟨i, hi, rfl⟩ := List.mem_map.1 hmem
    exact hkey i (List.mem_range.1 hi) rfl

/-- Witness of C6: two parameters are tagged `param.#0` and `param.#1`. -/
theorem C6_witness_two_params :
    SpanFromContext ctxWithSpan = some (Span.started 4) ∧
    ∃ (span : Span) (ctx1 : context.Context),
      (StartDBSpanFromContext ctxWithSpan "select" [.str "a", .other 3] exampleState).1 =
        .ok (span, ctx1) ∧
      tagsSet span (callsOf exampleState
          (StartDBSpanFromContext ctxWithSpan "select" [.str "a", .other 3] exampleState).2) =
        [("param.#0", .str "a"), ("param.#1", .other 3)] ∧
      ((List.range 2).map (fun i => "param.#" ++ toString i)).Nodup ∧
      (∀ (i : Nat) (hi : i < [Value.str "a", Value.other 3].length),
        tagValue (tagsSet span (callsOf exampleState
            (StartDBSpanFromContext ctxWithSpan "select" [.str "a", .other 3] exampleState).2))
          ("param.#" ++ toString i) = some [Value.str "a", Value.other 3][i]) ∧
      (∀ key : String,
        (∀ i < [Value.str "a", Value.other 3].length, key ≠ "param.#" ++ toString i) →
        tagValue (tagsSet span (callsOf exampleState
            (StartDBSpanFromContext ctxWithSpan "select" [.str "a", .other 3] exampleState).2))
          key = none) :=
  ⟨rfl, C6_db_span_param_tags ctxWithSpan "select" [.str "a", .other 3] exampleState
    (Span.started 4) rfl⟩

end database_claims

/-! ## Initialisation and teardown (`jeager.go`) -/

section jaeger_lemmas
open tracer

/-- The calls of jaeger on the adapter become log entries, in order. -/
theorem LoggerCall.run_apply (l : jaegerLoggerAdapter) (calls : List LoggerCall) :
    ∀ s : State, LoggerCall.run l calls s =
      (.ok (), { s with trace := s.trace ++ calls.map (LoggerCall.entry l) }) := by
  induction calls with
  | nil => intro s; simp [LoggerCall.run, Go.pure_apply]
  | cons c cs ih =>
    intro s
    cases c <;>
      simp [LoggerCall.run, Go.bind_apply, Go.bind, jaegerLoggerAdapter.Error,
        jaegerLoggerAdapter.Infof, log.Logger.Error, log.Logger.Info, fmt.Sprintf, Go.emit, ih,
        LoggerCall.entry]

theorem LoggerCall.entry_isSetGlobalTracer (l : jaegerLoggerAdapter) (c : LoggerCall) :
    (LoggerCall.entry l c).isSetGlobalTracer = false := by
  cases c <;> rfl

theorem LoggerCall.entry_isFatal (l : jaegerLoggerAdapter) (c : LoggerCall) :
    (LoggerCall.entry l c).isFatal = false := by
  cases c <;> rfl

theorem LoggerCall.entry_isClose (l : jaegerLoggerAdapter) (c : LoggerCall) :
    (LoggerCall.entry l c).isClose = false := by
  cases c <;> rfl

/-- The teardown closure: one `Close`, the entries the closer logs while
closing, then one log entry of its own. -/
theorem teardown_run (closer : Closer) (logger : log.Factory) (s : State) :
    teardown closer logger s =
      (.ok (), { s with trace := s.trace ++
        ([Event.Close closer.id] ++
          (closer.Close s.trace).1.map (LoggerCall.entry closer.logger) ++
          [match (closer.Close s.trace).2 with
            | some err => Event.Error logger.id "tracer close" [("err", err)]
            | none => Event.Info logger.id "tracer closed [teardown]" []]) }) := by
  cases h : (closer.Close s.trace).2 <;>
    simp [teardown, Go.call, Go.bind_apply, Go.bind, Go.pure_apply, Closer.CloseCall,
      Go.getTrace, h, LoggerCall.run_apply, log.Logger.Error, log.Logger.Info,
      log.Factory.Default, zap.Any, Go.emit, Go.runDefers]

/-- Tracer construction succeeds: the tracer is registered and returned. -/
theorem InitJaeger_ok (lib : JaegerLib) (serviceName : String) (metricsFactory : metrics.Factory)
    (logger : log.Factory) (s : State) (t : opentracing.Tracer) (id : Nat) (close : CloseFunc)
    (h : (lib.NewTracer (lib.FromEnv ⟨serviceName, ⟨"const", 1⟩⟩).1 ⟨logger.Default⟩
      metricsFactory).2 = .ok (t, id, close)) :
    InitJaeger lib serviceName metricsFactory logger s =
      (.ok (t, teardown ⟨id, ⟨logger.Default⟩, close⟩ logger),
        ⟨⟨t, s.world.nextSpan⟩, s.c,
          s.trace ++ ((match (lib.FromEnv ⟨serviceName, ⟨"const", 1⟩⟩).2 with
            | some e => [Event.Printf ("jaeger env variables from os env err: " ++ e ++ "\n")]
            | none => []) ++
            [Event.NewTracer (lib.FromEnv ⟨serviceName, ⟨"const", 1⟩⟩).1.ServiceName] ++
            (lib.NewTracer (lib.FromEnv ⟨serviceName, ⟨"const", 1⟩⟩).1 ⟨logger.Default⟩
              metricsFactory).1.map (LoggerCall.entry ⟨logger.Default⟩) ++
            [Event.SetGlobalTracer t.id]),
          s.defers⟩) := by
  rcases hfe : lib.FromEnv ⟨serviceName, ⟨"const", 1⟩⟩ with ⟨cfg, _ | e⟩ <;>
    simp only [hfe, log.Factory.Default] at h <;>
    simp [InitJaeger, JaegerLib.NewTracerCall, Go.call, Go.bind_apply, Go.bind, Go.pure_apply,
      hfe, h, Go.emit, LoggerCall.run_apply, log.Factory.Default, opentracing.SetGlobalTracer,
      Go.runDefers]

/-- Tracer construction fails: the fatal entry is logged and the process ends. -/
theorem InitJaeger_error (lib : JaegerLib) (serviceName : String)
    (metricsFactory : metrics.Factory) (logger : log.Factory) (s : State) (err : String)
    (h : (lib.NewTracer (lib.FromEnv ⟨serviceName, ⟨"const", 1⟩⟩).1 ⟨logger.Default⟩
      metricsFactory).2 = .error err) :
    InitJaeger lib serviceName metricsFactory logger s =
      (.exit 1,
        ⟨s.world, s.c,
          s.trace ++ ((match (lib.FromEnv ⟨serviceName, ⟨"const", 1⟩⟩).2 with
            | some e => [Event.Printf ("jaeger env variables from os env err: " ++ e ++ "\n")]
            | none => []) ++
            [Event.NewTracer (lib.FromEnv ⟨serviceName, ⟨"const", 1⟩⟩).1.ServiceName] ++
            (lib.NewTracer (lib.FromEnv ⟨serviceName, ⟨"const", 1⟩⟩).1 ⟨logger.Default⟩
              metricsFactory).1.map (LoggerCall.entry ⟨logger.Default⟩) ++
            [Event.Fatal logger.id "cannot initialize Jaeger Tracer" [("error", err)]]),
          s.defers⟩) := by
  rcases hfe : lib.FromEnv ⟨serviceName, ⟨"const", 1⟩⟩ with ⟨cfg, _ | e⟩ <;>
    simp only [hfe, log.Factory.Default] at h <;>
    simp [InitJaeger, JaegerLib.NewTracerCall, Go.call, Go.bind_apply, Go.bind, Go.pure_apply,
      hfe, h, Go.emit, LoggerCall.run_apply, log.Logger.Fatal, log.Factory.Default, zap.Error,
      Go.exit]

/-- A test that fails on every call but possibly the last holds nowhere else. -/
theorem forall_mem_initCalls (P L : List Event) (a b : Event) (p : Event → Bool)
    (hP : ∀ e ∈ P, p e = false) (hL : ∀ e ∈ L, p e = false) (ha : p a = false)
    (hb : p b = false) : ∀ e ∈ P ++ [a] ++ L ++ [b], p e = false := by
  intro e he
  simp only [List.mem_append, List.mem_singleton] at he
  rcases he with ((he | rfl) | he) | rfl
  · exact hP e he
  · exact ha
  · exact hL e he
  · exact hb

theorem filter_initCalls (P L : List Event) (a b : Event) (p : Event → Bool)
    (hP : ∀ e ∈ P, p e = false) (hL : ∀ e ∈ L, p e = false) (ha : p a = false)
    (hb : p b = true) : (P ++ [a] ++ L ++ [b]).filter p = [b] := by
  have h1 : P.filter p = [] := List.filter_eq_nil_iff.2 (fun e he => by simp [hP e he])
  have h2 : L.filter p = [] := List.filter_eq_nil_iff.2 (fun e he => by simp [hL e he])
  simp [List.filter_append, h1, h2, List.filter_cons, ha, hb]

end jaeger_lemmas

/-! ## Claims on initialisation and teardown -/

section jaeger_claims
open tracer

/-- C9: `InitJaeger` calls `SetGlobalTracer` if and only if `NewTracer`
succeeded.  When it succeeded, that call is the only one, the tracer
registered as global is the constructed tracer, and it is the tracer
returned (with the teardown closure of its closer); no fatal entry is logged.
When it failed, the last call is the fatal log entry, the process ends with
exit code 1 instead of returning, no `SetGlobalTracer` is called and the
global tracer is left as it was. -/
theorem C9_global_tracer_installed_iff_constructed (lib : JaegerLib) (serviceName : String)
    (metricsFactory : metrics.Factory) (logger : log.Factory) (s : State) :
    ((∃ e ∈ callsOf s (InitJaeger lib serviceName metricsFactory logger s).2,
        e.isSetGlobalTracer = true) ↔
      ∃ t id close, (lib.NewTracer (lib.FromEnv ⟨serviceName, ⟨"const", 1⟩⟩).1
        ⟨logger.Default⟩ metricsFactory).2 = .ok (t, id, close)) ∧
    match (lib.NewTracer (lib.FromEnv ⟨serviceName, ⟨"const", 1⟩⟩).1 ⟨logger.Default⟩
        metricsFactory).2 with
    | .ok (t, id, close) =>
      (InitJaeger lib serviceName metricsFactory logger s).1 =
        .ok (t, teardown ⟨id, ⟨logger.Default⟩, close⟩ logger) ∧
      (InitJaeger lib serviceName metricsFactory logger s).2.world.globalTracer = t ∧
      (callsOf s (InitJaeger lib serviceName metricsFactory logger s).2).filter
          Event.isSetGlobalTracer = [Event.SetGlobalTracer t.id] ∧
      (∀ e ∈ callsOf s (InitJaeger lib serviceName metricsFactory logger s).2,
        e.isFatal = false)
    | .error err =>
      (InitJaeger lib serviceName metricsFactory logger s).1 = .exit 1 ∧
      (InitJaeger lib serviceName metricsFactory logger s).2.world = s.world ∧
      (callsOf s (InitJaeger lib serviceName metricsFactory logger s).2).getLast? =
        some (Event.Fatal logger.id "cannot initialize Jaeger Tracer" [("error", err)]) ∧
      (∀ e ∈ callsOf s (InitJaeger lib serviceName metricsFactory logger s).2,
        e.isSetGlobalTracer = false) := by
  have hP : ∀ e ∈ (match (lib.FromEnv ⟨serviceName, ⟨"const", 1⟩⟩).2 with
      | some e => [Event.Printf ("jaeger env variables from os env err: " ++ e ++ "\n")]
      | none => []), e.isSetGlobalTracer = false ∧ e.isFatal = false := by
    cases (lib.FromEnv ⟨serviceName, ⟨"const", 1⟩⟩).2 <;>
      simp [Event.isSetGlobalTracer, Event.isFatal]
  have hL : ∀ e ∈ (lib.NewTracer (lib.FromEnv ⟨serviceName, ⟨"const", 1⟩⟩).1
      ⟨logger.Default⟩ metricsFactory).1.map (LoggerCall.entry ⟨logger.Default⟩),
      e.isSetGlobalTracer = false ∧ e.isFatal = false := by
    intro e he
    obtain ⟨c, _, rfl⟩ := List.mem_map.1 he
    exact ⟨LoggerCall.entry_isSetGlobalTracer _ c, LoggerCall.entry_isFatal _ c⟩
  cases h : (lib.NewTracer (lib.FromEnv ⟨serviceName, ⟨"const", 1⟩⟩).1 ⟨logger.Default⟩
      metricsFactory).2 with
  | error err =>
    rw [InitJaeger_error lib serviceName metricsFactory logger s err h]
    simp only [callsOf_append]
    have hall := forall_mem_initCalls _ _ (Event.NewTracer
      (lib.FromEnv ⟨serviceName, ⟨"const", 1⟩⟩).1.ServiceName)
      (Event.Fatal logger.id "cannot initialize Jaeger Tracer" [("error", err)])
      Event.isSetGlobalTracer (fun e he => (hP e he).1) (fun e he => (hL e he).1) rfl rfl
    refine ⟨⟨?_, ?_⟩, trivial, trivial, List.getLast?_concat _, hall⟩
    · rintro ⟨e, he, hs⟩
      rw [hall e he] at hs
      cases hs
    · rintro ⟨t, id, close, hc⟩
      cases hc
  | ok p =>
    obtain ⟨t, id, close⟩ := p
    rw [InitJaeger_ok lib serviceName metricsFactory logger s t id close h]
    simp only [callsOf_append]
    refine ⟨⟨fun _ => ⟨t, id, close, rfl⟩,
      fun _ => ⟨Event.SetGlobalTracer t.id, by simp, rfl⟩⟩, trivial, trivial, ?_, ?_⟩
    · exact filter_initCalls _ _ _ _ Event.isSetGlobalTracer (fun e he => (hP e he).1)
        (fun e he => (hL e he).1) rfl rfl
    · exact forall_mem_initCalls _ _ _ _ Event.isFatal (fun e he => (hP e he).2)
        (fun e he => (hL e he).2) rfl rfl

/-- Instance of C9 where tracer construction fails: the fatal entry is the
last call, the process exits, the global tracer is untouched. -/
theorem C9_witness_construction_fails :
    ((∃ e ∈ callsOf exampleState
          (InitJaeger failingLib "svc" ⟨1⟩ ⟨2⟩ exampleState).2, e.isSetGlobalTracer = true) ↔
      ∃ t id close, (failingLib.NewTracer (failingLib.FromEnv ⟨"svc", ⟨"const", 1⟩⟩).1
        ⟨(⟨2⟩ : log.Factory).Default⟩ ⟨1⟩).2 = .ok (t, id, close)) ∧
    (InitJaeger failingLib "svc" ⟨1⟩ ⟨2⟩ exampleState).1 = .exit 1 ∧
    (InitJaeger failingLib "svc" ⟨1⟩ ⟨2⟩ exampleState).2.world = exampleState.world ∧
    (callsOf exampleState (InitJaeger failingLib "svc" ⟨1⟩ ⟨2⟩ exampleState).2).getLast? =
      some (Event.Fatal 2 "cannot initialize Jaeger Tracer"
        [("error", "unknown sampler type")]) ∧
    (∀ e ∈ callsOf exampleState (InitJaeger failingLib "svc" ⟨1⟩ ⟨2⟩ exampleState).2,
      e.isSetGlobalTracer = false) :=
  C9_global_tracer_installed_iff_constructed failingLib "svc" ⟨1⟩ ⟨2⟩ exampleState

/-- C10, as the code has it: a teardown function `td` returned by
`InitJaeger` is the teardown of the closer `NewTracer` gave.  Called in any
state, `td` returns normally; its calls are one `Close` on that closer, then
the entries the closer itself logs through the adapter while it closes, and
last exactly one entry of its own: the error entry `tracer close` when
`Close` returned an error, the info entry `tracer closed [teardown]` when it
did not.  The close error is not propagated and nothing else changes. -/
theorem C10_teardown_closes_once_then_logs_outcome (lib : JaegerLib) (serviceName : String)
    (metricsFactory : metrics.Factory) (logger : log.Factory)
    (s0 s1 : State) (t : opentracing.Tracer) (td : Go Unit)
    (h : InitJaeger lib serviceName metricsFactory logger s0 = (.ok (t, td), s1))
    (s : State) :
    ∃ (id : Nat) (close : CloseFunc),
      (lib.NewTracer (lib.FromEnv ⟨serviceName, ⟨"const", 1⟩⟩).1 ⟨logger.Default⟩
        metricsFactory).2 = .ok (t, id, close) ∧
      (td s).1 = .ok () ∧
      callsOf s (td s).2 =
        [Event.Close id] ++
          (close s.trace).1.map (LoggerCall.entry ⟨logger.Default⟩) ++
          [match (close s.trace).2 with
            | some err => Event.Error logger.id "tracer close" [("err", err)]
            | none => Event.Info logger.id "tracer closed [teardown]" []] ∧
      ((callsOf s (td s).2).filter Event.isClose).length = 1 ∧
      (td s).2.world = s.world ∧ (td s).2.c = s.c ∧ (td s).2.defers = s.defers := by
  cases hn : (lib.NewTracer (lib.FromEnv ⟨serviceName, ⟨"const", 1⟩⟩).1 ⟨logger.Default⟩
      metricsFactory).2 with
  | error err =>
    rw [InitJaeger_error lib serviceName metricsFactory logger s0 err hn] at h
    cases h
  | ok p =>
    obtain ⟨t1, id, close⟩ := p
    rw [InitJaeger_ok lib serviceName metricsFactory logger s0 t1 id close hn] at h
    injection h with h1 h2
    injection h1 with h1
    injection h1 with ht htd
    subst ht htd
    refine ⟨id, close, rfl, ?_⟩
    rw [teardown_run]
    simp only [callsOf_append]
    refine ⟨trivial, trivial, ?_, trivial, trivial, trivial⟩
    have hL : ((close s.trace).1.map (LoggerCall.entry ⟨logger.Default⟩)).filter
        Event.isClose = [] :=
      List.filter_eq_nil_iff.2 (fun e he => by
        obtain ⟨c, _, rfl⟩ := List.mem_map.1 he
        simp [LoggerCall.entry_isClose])
    have hb : (match (close s.trace).2 with
        | some err => Event.Error logger.id "tracer close" [("err", err)]
        | none => Event.Info logger.id "tracer closed [teardown]" []).isClose = false := by
      cases (close s.trace).2 <;> rfl
    rw [List.filter_append, List.filter_append, hL, List.filter_cons, List.filter_cons, hb]
    rfl

/-- Witness of C10: the first call of the teardown returned for the working
library; the closer logs nothing and reports no error. -/
theorem C10_witness_first_teardown_call :
    InitJaeger workingLib "svc" ⟨1⟩ ⟨2⟩ exampleState =
      (.ok (workingTracer, teardown workingCloser ⟨2⟩), stateAfterInit) ∧
    ∃ (id : Nat) (close : CloseFunc),
      (workingLib.NewTracer (workingLib.FromEnv ⟨"svc", ⟨"const", 1⟩⟩).1
        ⟨(⟨2⟩ : log.Factory).Default⟩ ⟨1⟩).2 = .ok (workingTracer, id, close) ∧
      (teardown workingCloser ⟨2⟩ stateAfterInit).1 = .ok () ∧
      callsOf stateAfterInit (teardown workingCloser ⟨2⟩ stateAfterInit).2 =
        [Event.Close id] ++
          (close stateAfterInit.trace).1.map
            (LoggerCall.entry ⟨(⟨2⟩ : log.Factory).Default⟩) ++
          [match (close stateAfterInit.trace).2 with
            | some err => Event.Error 2 "tracer close" [("err", err)]
            | none => Event.Info 2 "tracer closed [teardown]" []] ∧
      ((callsOf stateAfterInit (teardown workingCloser ⟨2⟩ stateAfterInit).2).filter
        Event.isClose).length = 1 ∧
      (teardown workingCloser ⟨2⟩ stateAfterInit).2.world = stateAfterInit.world ∧
      (teardown workingCloser ⟨2⟩ stateAfterInit).2.c = stateAfterInit.c ∧
      (teardown workingCloser ⟨2⟩ stateAfterInit).2.defers = stateAfterInit.defers :=
  ⟨rfl, C10_teardown_closes_once_then_logs_outcome workingLib "svc" ⟨1⟩ ⟨2⟩ exampleState
    stateAfterInit workingTracer (teardown workingCloser ⟨2⟩) rfl stateAfterInit⟩

/-- Counterexample to C10 as stated: the teardown function `InitJaeger`
returned for the working library is called a second time.  `Close` returns
no error, yet the calls of this teardown call hold one error entry (logged
by the closer through the adapter) besides the info entry. -/
theorem C10_counterexample_repeated_close_logs_error :
    (InitJaeger workingLib "svc" ⟨1⟩ ⟨2⟩ exampleState).1 =
      .ok (workingTracer, teardown workingCloser ⟨2⟩) ∧
    (workingCloser.Close stateAfterTeardown.trace).2 = none ∧
    (teardown workingCloser ⟨2⟩ stateAfterTeardown).1 = .ok () ∧
    callsOf stateAfterTeardown (teardown workingCloser ⟨2⟩ stateAfterTeardown).2 =
      [Event.Close 3,
        Event.Error 2 "Repeated attempt to close the reporter is ignored" [],
        Event.Info 2 "tracer closed [teardown]" []] ∧
    ((callsOf stateAfterTeardown (teardown workingCloser ⟨2⟩ stateAfterTeardown).2).filter
      Event.isError).length = 1 ∧
    ((callsOf stateAfterTeardown (teardown workingCloser ⟨2⟩ stateAfterTeardown).2).filter
      Event.isInfo).length = 1 := by
  refine ⟨rfl, ?_⟩
  decide

end jaeger_claims
